import Mathlib

/-!
Verification of the elfa-ai plugin (`src/dist/index.js`): a shallow embedding
of its configuration resolver, the per-action content type-guards, and the
seven action handlers (ping, key status, smart mentions, top mentions,
search mentions by keywords, trending tokens, twitter account stats),
together with theorems settling the specification claims.

External collaborators (the model-extraction call `generateObject`, the text
generation `generateText`, and the HTTP transport `axios.get`) are modelled
as explicit outcome parameters (`Externals`): each is an `Except` carrying
either its result or the message of the exception it throws.  A handler run
records the messages it emits through its callback, the HTTP requests it
issues, and the boolean it returns.
-/

namespace ElfaAi

/-- A JavaScript runtime value as far as the plugin inspects one: the
primitive values that the extraction contents and query parameters can
hold, plus `null` and `undefined`. -/
inductive JSVal where
  | vStr (s : String)
  | vNum (n : Int)
  | vBool (b : Bool)
  | vNull
  | vUndefined
deriving DecidableEq, Repr

/-- JavaScript `typeof`, restricted to the values of `JSVal`; it yields a
string value. -/
def jsTypeof : JSVal → JSVal
  | .vStr _ => .vStr "string"
  | .vNum _ => .vStr "number"
  | .vBool _ => .vStr "boolean"
  | .vNull => .vStr "object"
  | .vUndefined => .vStr "undefined"

/-- JavaScript strict equality `===` on the embedded values. -/
def jsStrictEq : JSVal → JSVal → Bool
  | .vStr a, .vStr b => a == b
  | .vNum a, .vNum b => a == b
  | .vBool a, .vBool b => a == b
  | .vNull, .vNull => true
  | .vUndefined, .vUndefined => true
  | _, _ => false

/-- Destructuring default `const \x7b x = d \x7d = content`: the default
applies exactly when the value is `undefined`. -/
def withDefault (v : JSVal) (d : JSVal) : JSVal :=
  if v = .vUndefined then d else v

/-- JavaScript template-literal conversion of a value to text, as in
`` `$\x7bbaseUrl\x7d/v1/ping` ``. -/
def jsAsString : JSVal → String
  | .vStr s => s
  | .vNum n => toString n
  | .vBool b => if b then "true" else "false"
  | .vNull => "null"
  | .vUndefined => "undefined"

/-- Template-literal conversion of an optional string (a setting that may be
absent): an absent value prints as `undefined`. -/
def optAsString : Option String → String
  | some s => s
  | none => "undefined"

/-- An extraction output: an object read through its (finitely many)
field names.  Fields the object does not carry read as `undefined`. -/
def Content : Type := String → JSVal

/-- A JSON tree, the shape of the upstream API response bodies. -/
inductive Json where
  | jNull
  | jBool (b : Bool)
  | jNum (n : Int)
  | jStr (s : String)
  | jArr (xs : List Json)
  | jObj (fields : List (String × Json))

/-- Escape one character for a JSON string literal. -/
def escapeJsonChar (c : Char) : String :=
  if c = '"' then "\\\""
  else if c = '\\' then "\\\\"
  else if c = '\n' then "\\n"
  else if c = '\t' then "\\t"
  else if c = '\r' then "\\r"
  else String.singleton c

/-- Escape a string for a JSON string literal. -/
def escapeJson (s : String) : String :=
  String.join (s.toList.map escapeJsonChar)

/-- A JSON-quoted string literal. -/
def quoteJson (s : String) : String :=
  "\"" ++ escapeJson s ++ "\""

/-- `n` spaces of indentation. -/
def spaces (n : Nat) : String :=
  String.mk (List.replicate n ' ')

mutual

/-- `JSON.stringify(v, null, 2)`: pretty printing with two-space
indentation, `ind` being the current indentation of the surrounding
composite value. -/
def stringifyVal (ind : Nat) : Json → String
  | .jNull => "null"
  | .jBool b => if b then "true" else "false"
  | .jNum n => toString n
  | .jStr s => quoteJson s
  | .jArr [] => "[]"
  | .jArr (x :: xs) =>
      "[\n" ++ stringifyItems (ind + 2) x xs ++ "\n" ++ spaces ind ++ "]"
  | .jObj [] => "\x7b\x7d"
  | .jObj (f :: fs) =>
      "\x7b\n" ++ stringifyFields (ind + 2) f fs ++ "\n" ++ spaces ind ++ "\x7d"
termination_by v => sizeOf v

/-- The items of a non-empty pretty-printed array, one per line. -/
def stringifyItems (ind : Nat) (x : Json) : List Json → String
  | [] => spaces ind ++ stringifyVal ind x
  | y :: ys => spaces ind ++ stringifyVal ind x ++ ",\n" ++ stringifyItems ind y ys
termination_by ys => sizeOf x + sizeOf ys

/-- The fields of a non-empty pretty-printed object, one per line. -/
def stringifyFields (ind : Nat) : String × Json → List (String × Json) → String
  | (k, v), [] => spaces ind ++ quoteJson k ++ ": " ++ stringifyVal ind v
  | (k, v), g :: gs => spaces ind ++ quoteJson k ++ ": " ++ stringifyVal ind v
      ++ ",\n" ++ stringifyFields ind g gs
termination_by f gs => sizeOf f + sizeOf gs

end

/-- `JSON.stringify(v, null, 2)` at top level. -/
def stringify2 (v : Json) : String := stringifyVal 0 v

mutual

/-- `JSON.stringify(v)`: compact serialization without whitespace. -/
def stringifyCompact : Json → String
  | .jNull => "null"
  | .jBool b => if b then "true" else "false"
  | .jNum n => toString n
  | .jStr s => quoteJson s
  | .jArr [] => "[]"
  | .jArr (x :: xs) => "[" ++ stringifyCompactItems x xs ++ "]"
  | .jObj [] => "\x7b\x7d"
  | .jObj (f :: fs) => "\x7b" ++ stringifyCompactFields f fs ++ "\x7d"
termination_by v => sizeOf v

/-- The comma-separated items of a compact array. -/
def stringifyCompactItems (x : Json) : List Json → String
  | [] => stringifyCompact x
  | y :: ys => stringifyCompact x ++ "," ++ stringifyCompactItems y ys
termination_by ys => sizeOf x + sizeOf ys

/-- The comma-separated fields of a compact object. -/
def stringifyCompactFields : String × Json → List (String × Json) → String
  | (k, v), [] => quoteJson k ++ ":" ++ stringifyCompact v
  | (k, v), g :: gs => quoteJson k ++ ":" ++ stringifyCompact v ++ ","
      ++ stringifyCompactFields g gs
termination_by f gs => sizeOf f + sizeOf gs

end

/-- Does `pat` start the character list `s`? -/
def charsStartWith : List Char → List Char → Bool
  | [], _ => true
  | _ :: _, [] => false
  | p :: ps, c :: cs => p == c && charsStartWith ps cs

/-- Does `pat` occur as a contiguous run inside `s`? -/
def charsHasSub (pat : List Char) : List Char → Bool
  | [] => charsStartWith pat []
  | c :: cs => charsStartWith pat (c :: cs) || charsHasSub pat cs

/-- Does the string `pat` occur contiguously inside `hay`? -/
def strHasSub (hay pat : String) : Bool :=
  charsHasSub pat.toList hay.toList

/-! ## Configuration (`src/environment.ts`) -/

/-- The agent runtime as the plugin sees it: a settings lookup
(`runtime.getSetting`).  An absent setting reads as `none`. -/
structure Runtime where
  settings : String → Option String

/-- The process environment (`process.env`). -/
structure Env where
  vars : String → Option String

/-- One field of the config object built in `validateElfaAiConfig`:
`runtime.getSetting(key) || process.env[key]`.  JavaScript `||` falls
through on every falsy value, so an absent or empty setting yields the
environment variable. -/
def resolveField (rt : Runtime) (env : Env) (key : String) : Option String :=
  match rt.settings key with
  | some s => if s = "" then env.vars key else some s
  | none => env.vars key

/-- The issues `z.string().min(1, msg)` raises for a field of
`elfaAiEnvSchema`, already formatted as `path: message` the way
`validateElfaAiConfig` renders them: an absent value fails the string
check with zod's `Required`, an empty string fails `min(1)` with the
schema's custom message. -/
def zodFieldIssues (field msg : String) : Option String → List String
  | none => [field ++ ": Required"]
  | some s => if s = "" then [field ++ ": " ++ msg] else []

/-- The resolved configuration returned by `elfaAiEnvSchema.parse`. -/
structure ElfaConfig where
  elfaBaseUrl : String
  elfaApiKey : String
deriving DecidableEq

/-- All issues `elfaAiEnvSchema.parse` collects for a config object:
zod parses every key of the object and aggregates the issues, so both
fields are reported, not only the first. -/
def elfaAiEnvSchemaIssues (burl key : Option String) : List String :=
  zodFieldIssues "ELFA_AI_BASE_URL"
    "Base URL is required for interacting with Elfa AI" burl
  ++ zodFieldIssues "ELFA_AI_API_KEY"
    "API key is required for interacting with Elfa AI" key

/-- The outcome of `elfaAiEnvSchema.parse` on a config object, combined
with the `catch` block's formatting: on failure the thrown `Error`
message joins every issue with a newline under a fixed header. -/
def elfaAiConfigOutcome (burl key : Option String) : Except String ElfaConfig :=
  if (elfaAiEnvSchemaIssues burl key).isEmpty then
    .ok ⟨burl.getD "", key.getD ""⟩
  else
    .error ("Elfa AI configuration validation failed:\n"
      ++ String.intercalate "\n" (elfaAiEnvSchemaIssues burl key))

/-- `validateElfaAiConfig(runtime)`: resolves both fields
(setting first, environment second) and parses them against
`elfaAiEnvSchema`.  `Except.error` models the throw. -/
def validateElfaAiConfig (rt : Runtime) (env : Env) : Except String ElfaConfig :=
  elfaAiConfigOutcome
    (resolveField rt env "ELFA_AI_BASE_URL")
    (resolveField rt env "ELFA_AI_API_KEY")

/-- The `validate` member shared verbatim by all seven action
descriptors: `await validateElfaAiConfig(runtime); return true;` — it
either throws (the `Except.error` case) or returns `true`; it never
returns `false`. -/
def actionValidate (rt : Runtime) (env : Env) : Except String Bool :=
  match validateElfaAiConfig rt env with
  | .ok _ => .ok true
  | .error e => .error e

/-- The error text carried by a failed `Except` (empty for a success). -/
def exceptErrMsg {α : Type} : Except String α → String
  | .error e => e
  | .ok _ => ""

/-! ## Content type-guards (one per parameterized action) -/

/-- `isGetSmartMentionsContent` (`src/actions/getSmartMentions.ts`). -/
def isGetSmartMentionsContent (content : Content) : Bool :=
  jsStrictEq (jsTypeof (content "limit")) (.vStr "number")
  && jsStrictEq (jsTypeof (content "offset")) (.vStr "number")

/-- `isGetTopMentionsContent` (`src/actions/getTopMentions.ts`). -/
def isGetTopMentionsContent (content : Content) : Bool :=
  jsStrictEq (jsTypeof (content "ticker")) (.vStr "string")
  && (jsStrictEq (content "timeWindow") .vUndefined
      || jsStrictEq (jsTypeof (content "timeWindow")) (.vStr "string"))
  && (jsStrictEq (content "page") .vUndefined
      || jsStrictEq (jsTypeof (content "page")) (.vStr "number"))
  && (jsStrictEq (content "pageSize") .vUndefined
      || jsStrictEq (jsTypeof (content "pageSize")) (.vStr "number"))
  && (jsStrictEq (content "includeAccountDetails") .vUndefined
      || jsStrictEq (jsTypeof (content "includeAccountDetails")) (.vStr "boolean"))

/-- `isGetSearchMentionsByKeywordsContent`
(`src/actions/getSearchMentionsByKeywords.ts`). -/
def isGetSearchMentionsByKeywordsContent (content : Content) : Bool :=
  jsStrictEq (jsTypeof (content "keywords")) (.vStr "string")
  && jsStrictEq (jsTypeof (content "from")) (.vStr "number")
  && jsStrictEq (jsTypeof (content "to")) (.vStr "number")
  && (jsStrictEq (jsTypeof (content "limit")) (.vStr "number")
      || jsStrictEq (content "limit") .vUndefined)

/-- `isGetTrendingTokensContent` (`src/actions/getTrendingTokens.ts`),
with the source's exact grouping: `&&` binds tighter than `||`, and the
inner clauses compare `typeof content.x` (a string value) against
`void 0` with `===`. -/
def isGetTrendingTokensContent (content : Content) : Bool :=
  jsStrictEq (jsTypeof (content "timeWindow")) (.vStr "string")
  || (jsStrictEq (jsTypeof (content "timeWindow")) .vUndefined
      && jsStrictEq (jsTypeof (content "page")) (.vStr "number"))
  || (jsStrictEq (jsTypeof (content "page")) .vUndefined
      && jsStrictEq (jsTypeof (content "pageSize")) (.vStr "number"))
  || (jsStrictEq (jsTypeof (content "pageSize")) .vUndefined
      && jsStrictEq (jsTypeof (content "minMentions")) (.vStr "number"))
  || jsStrictEq (jsTypeof (content "minMentions")) .vUndefined

/-- `isGetTwitterAccountStatsContent`
(`src/actions/getTwitterAccountStats.ts`). -/
def isGetTwitterAccountStatsContent (content : Content) : Bool :=
  jsStrictEq (jsTypeof (content "username")) (.vStr "string")

/-! ## Handlers -/

/-- An HTTP GET request as a handler builds it for `axios.get`: the
interpolated URL, the two headers, and the query parameters in the order
the source lists them.  `apiKeyHeader` is the raw `getSetting` result,
`none` when the setting is absent (the header value is then `undefined`). -/
structure Request where
  url : String
  contentType : String
  apiKeyHeader : Option String
  params : List (String × JSVal)
deriving DecidableEq

/-- A message emitted through the handler's `callback`. -/
structure Message where
  text : String
  action : Option String
deriving DecidableEq

/-- What one handler invocation does: the callback messages it emits, the
HTTP requests it issues, and the boolean it returns. -/
structure HandlerResult where
  messages : List Message
  requests : List Request
  result : Bool
deriving DecidableEq

/-- Outcomes of the three external collaborators during one invocation:
the state-composition plus `generateObject` extraction round-trip, the
HTTP transport, and the `generateText` summarization.  An `Except.error`
carries the `message` of the exception the collaborator throws. -/
structure Externals where
  extraction : Except String Content
  http : Request → Except String Json
  summarize : String → Except String String

/-- The standard headers and base URL every handler builds: base URL and
API key are read from `runtime.getSetting` only (no environment
fallback), and an absent base URL interpolates as `undefined`. -/
def requestFor (rt : Runtime) (path : String) (params : List (String × JSVal)) :
    Request where
  url := optAsString (rt.settings "ELFA_AI_BASE_URL") ++ path
  contentType := "application/json"
  apiKeyHeader := rt.settings "ELFA_AI_API_KEY"
  params := params

/-- `elfaPingAction.handler`: no extraction, no summarization — it
issues `GET $\x7bbaseUrl\x7d/v1/ping` and reports the raw JSON. -/
def elfaPingHandler (rt : Runtime) (ext : Externals) : HandlerResult :=
  let req := requestFor rt "/v1/ping" []
  match ext.http req with
  | .ok body =>
      ⟨[⟨"Elfa AI API is up and running. Response: " ++ stringifyCompact body,
        some "ELFA_PING"⟩], [req], true⟩
  | .error e =>
      ⟨[⟨"Elfa AI API is down. Please check the API status.\nError:\n" ++ e,
        some "ELFA_PING"⟩], [req], false⟩

/-- `elfaApiKeyStatusAction.handler`: no extraction, no summarization —
it issues `GET $\x7bbaseUrl\x7d/v1/key-status` and reports the raw JSON. -/
def elfaApiKeyStatusHandler (rt : Runtime) (ext : Externals) : HandlerResult :=
  let req := requestFor rt "/v1/key-status" []
  match ext.http req with
  | .ok body =>
      ⟨[⟨"Elfa AI API key status. Response: " ++ stringifyCompact body,
        some "ELFA_API_KEY_STATUS"⟩], [req], true⟩
  | .error e =>
      ⟨[⟨"Failed to get api key status from Elfa AI. Please check the your API key.\nError:\n" ++ e,
        some "ELFA_API_KEY_STATUS"⟩], [req], false⟩

/-- The dashed separator line between the narrative summary and the raw
response in every success message of the five parameterized handlers. -/
def rawResponseSep : String :=
  "\n------------------------------------------------\nRaw Response: \n"

/-- The request `elfaGetSmartMentions.handler` dispatches after its
guard passes: destructuring defaults `limit = 100`, `offset = 0`. -/
def smartMentionsRequest (rt : Runtime) (c : Content) : Request :=
  requestFor rt "/v1/mentions"
    [("limit", withDefault (c "limit") (.vNum 100)),
     ("offset", withDefault (c "offset") (.vNum 0))]

/-- The summarization prompt of `elfaGetSmartMentions.handler`. -/
def smartMentionsPrompt (body : Json) : String :=
  "Extracted information and summarize the smart mentions from the Elfa AI API.:\n            "
  ++ stringify2 body

/-- `elfaGetSmartMentions.handler`: extraction, guard, dispatch,
summarization, combined message; one `try/catch` converts any thrown
error into a failure message and `false`. -/
def elfaGetSmartMentionsHandler (rt : Runtime) (ext : Externals) : HandlerResult :=
  match ext.extraction with
  | .error e =>
      ⟨[⟨"Failed to get smart mentions from Elfa AI API.\nError:\n" ++ e,
        some "ELFA_GET_SMART_MENTIONS"⟩], [], false⟩
  | .ok c =>
    if isGetSmartMentionsContent c then
      let req := smartMentionsRequest rt c
      match ext.http req with
      | .error e =>
          ⟨[⟨"Failed to get smart mentions from Elfa AI API.\nError:\n" ++ e,
            some "ELFA_GET_SMART_MENTIONS"⟩], [req], false⟩
      | .ok body =>
        match ext.summarize (smartMentionsPrompt body) with
        | .error e =>
            ⟨[⟨"Failed to get smart mentions from Elfa AI API.\nError:\n" ++ e,
              some "ELFA_GET_SMART_MENTIONS"⟩], [req], false⟩
        | .ok cm =>
            ⟨[⟨"Retrieves tweets by smart accounts with smart engagement from the Elfa AI API:\n"
              ++ cm ++ rawResponseSep ++ stringify2 body,
              some "ELFA_GET_SMART_MENTIONS"⟩], [req], true⟩
    else
      ⟨[⟨"Unable to process get smart mentions request. Invalid content provided.",
        none⟩], [], false⟩

/-- The request `elfaGetTopMentionsAction.handler` dispatches after its
guard passes: destructuring defaults `timeWindow = "1h"`, `page = 1`,
`pageSize = 10`, `includeAccountDetails = false`. -/
def topMentionsRequest (rt : Runtime) (c : Content) : Request :=
  requestFor rt "/v1/top-mentions"
    [("ticker", c "ticker"),
     ("timeWindow", withDefault (c "timeWindow") (.vStr "1h")),
     ("page", withDefault (c "page") (.vNum 1)),
     ("pageSize", withDefault (c "pageSize") (.vNum 10)),
     ("includeAccountDetails", withDefault (c "includeAccountDetails") (.vBool false))]

/-- The summarization prompt of `elfaGetTopMentionsAction.handler`. -/
def topMentionsPrompt (body : Json) : String :=
  "Extracted information and summarize the top tweets for a specific ticker from the Elfa AI API. Make sure you mention details of the tweet such as date, post metrics and the tweet content:\n            "
  ++ stringify2 body

/-- `elfaGetTopMentionsAction.handler`. -/
def elfaGetTopMentionsHandler (rt : Runtime) (ext : Externals) : HandlerResult :=
  match ext.extraction with
  | .error e =>
      ⟨[⟨"Failed to get top mentions for provided ticker from Elfa AI API.\nError:\n" ++ e,
        some "ELFA_GET_TOP_MENTIONS"⟩], [], false⟩
  | .ok c =>
    if isGetTopMentionsContent c then
      let req := topMentionsRequest rt c
      match ext.http req with
      | .error e =>
          ⟨[⟨"Failed to get top mentions for provided ticker from Elfa AI API.\nError:\n" ++ e,
            some "ELFA_GET_TOP_MENTIONS"⟩], [req], false⟩
      | .ok body =>
        match ext.summarize (topMentionsPrompt body) with
        | .error e =>
            ⟨[⟨"Failed to get top mentions for provided ticker from Elfa AI API.\nError:\n" ++ e,
              some "ELFA_GET_TOP_MENTIONS"⟩], [req], false⟩
        | .ok cm =>
            ⟨[⟨"Retrieved top tweets for the " ++ jsAsString (c "ticker") ++ ":\n"
              ++ cm ++ rawResponseSep ++ stringify2 body,
              some "ELFA_GET_TOP_MENTIONS"⟩], [req], true⟩
    else
      ⟨[⟨"Unable to process get top mentions for the requested ticker. Invalid content provided.",
        none⟩], [], false⟩

/-- The request `elfaGetSearchMentionsByKeywordsAction.handler`
dispatches after its guard passes: destructuring default `limit = 20`. -/
def searchMentionsRequest (rt : Runtime) (c : Content) : Request :=
  requestFor rt "/v1/mentions/search"
    [("keywords", c "keywords"),
     ("from", c "from"),
     ("to", c "to"),
     ("limit", withDefault (c "limit") (.vNum 20))]

/-- The summarization prompt of
`elfaGetSearchMentionsByKeywordsAction.handler`. -/
def searchMentionsPrompt (body : Json) : String :=
  "Extracted information and summarize the tweets for keywords from the Elfa AI API. Make sure you mention details of the tweet such as date, post metrics and the tweet content:\n            "
  ++ stringify2 body

/-- `elfaGetSearchMentionsByKeywordsAction.handler`. -/
def elfaGetSearchMentionsByKeywordsHandler (rt : Runtime) (ext : Externals) :
    HandlerResult :=
  match ext.extraction with
  | .error e =>
      ⟨[⟨"Failed to get tweets for the mentioned keywords from Elfa AI API.\nError:\n" ++ e,
        some "ELFA_SEARCH_MENTIONS_BY_KEYWORDS"⟩], [], false⟩
  | .ok c =>
    if isGetSearchMentionsByKeywordsContent c then
      let req := searchMentionsRequest rt c
      match ext.http req with
      | .error e =>
          ⟨[⟨"Failed to get tweets for the mentioned keywords from Elfa AI API.\nError:\n" ++ e,
            some "ELFA_SEARCH_MENTIONS_BY_KEYWORDS"⟩], [req], false⟩
      | .ok body =>
        match ext.summarize (searchMentionsPrompt body) with
        | .error e =>
            ⟨[⟨"Failed to get tweets for the mentioned keywords from Elfa AI API.\nError:\n" ++ e,
              some "ELFA_SEARCH_MENTIONS_BY_KEYWORDS"⟩], [req], false⟩
        | .ok cm =>
            ⟨[⟨"Retrieved tweets for the " ++ jsAsString (c "keywords")
              ++ " keywords from the Elfa AI API:\n"
              ++ cm ++ rawResponseSep ++ stringify2 body,
              some "ELFA_SEARCH_MENTIONS_BY_KEYWORDS"⟩], [req], true⟩
    else
      ⟨[⟨"Unable to search for tweets by the keywords provided. Invalid content provided.",
        none⟩], [], false⟩

/-- The request `elfaGetTrendingTokens.handler` dispatches after its
guard passes: destructuring defaults `timeWindow = "24h"`, `page = 1`,
`pageSize = 50`, `minMentions = 5`. -/
def trendingTokensRequest (rt : Runtime) (c : Content) : Request :=
  requestFor rt "/v1/trending-tokens"
    [("timeWindow", withDefault (c "timeWindow") (.vStr "24h")),
     ("page", withDefault (c "page") (.vNum 1)),
     ("pageSize", withDefault (c "pageSize") (.vNum 50)),
     ("minMentions", withDefault (c "minMentions") (.vNum 5))]

/-- The summarization prompt of `elfaGetTrendingTokens.handler`. -/
def trendingTokensPrompt (body : Json) : String :=
  "Extracted information and summarize the trending tokens by twitter mentions from the Elfa AI API.:\n            "
  ++ stringify2 body

/-- `elfaGetTrendingTokens.handler`. -/
def elfaGetTrendingTokensHandler (rt : Runtime) (ext : Externals) : HandlerResult :=
  match ext.extraction with
  | .error e =>
      ⟨[⟨"Failed to get trending tokens from Elfa AI API.\nError:\n" ++ e,
        some "ELFA_GET_TRENDING_TOKENS"⟩], [], false⟩
  | .ok c =>
    if isGetTrendingTokensContent c then
      let req := trendingTokensRequest rt c
      match ext.http req with
      | .error e =>
          ⟨[⟨"Failed to get trending tokens from Elfa AI API.\nError:\n" ++ e,
            some "ELFA_GET_TRENDING_TOKENS"⟩], [req], false⟩
      | .ok body =>
        match ext.summarize (trendingTokensPrompt body) with
        | .error e =>
            ⟨[⟨"Failed to get trending tokens from Elfa AI API.\nError:\n" ++ e,
              some "ELFA_GET_TRENDING_TOKENS"⟩], [req], false⟩
        | .ok cm =>
            ⟨[⟨"Retrieves trending tokens by twitter mentions from the Elfa AI API:\n"
              ++ cm ++ rawResponseSep ++ stringify2 body,
              some "ELFA_GET_TRENDING_TOKENS"⟩], [req], true⟩
    else
      ⟨[⟨"Unable to process get trending tokens request. Invalid content provided.",
        none⟩], [], false⟩

/-- The request `elfaGetTwitterAccountStatsAction.handler` dispatches
after its guard passes. -/
def accountStatsRequest (rt : Runtime) (c : Content) : Request :=
  requestFor rt "/v1/account/smart-stats" [("username", c "username")]

/-- The summarization prompt of
`elfaGetTwitterAccountStatsAction.handler`. -/
def accountStatsPrompt (c : Content) (body : Json) : String :=
  "Extracted information and summarize the smart account stats for provided username "
  ++ jsAsString (c "username") ++ ":\n            " ++ stringify2 body

/-- `elfaGetTwitterAccountStatsAction.handler`. -/
def elfaGetTwitterAccountStatsHandler (rt : Runtime) (ext : Externals) :
    HandlerResult :=
  match ext.extraction with
  | .error e =>
      ⟨[⟨"Failed to get twitter account data for the mentioned username from Elfa AI API.\nError:\n" ++ e,
        some "ELFA_TWITTER_ACCOUNT_STATS"⟩], [], false⟩
  | .ok c =>
    if isGetTwitterAccountStatsContent c then
      let req := accountStatsRequest rt c
      match ext.http req with
      | .error e =>
          ⟨[⟨"Failed to get twitter account data for the mentioned username from Elfa AI API.\nError:\n" ++ e,
            some "ELFA_TWITTER_ACCOUNT_STATS"⟩], [req], false⟩
      | .ok body =>
        match ext.summarize (accountStatsPrompt c body) with
        | .error e =>
            ⟨[⟨"Failed to get twitter account data for the mentioned username from Elfa AI API.\nError:\n" ++ e,
              some "ELFA_TWITTER_ACCOUNT_STATS"⟩], [req], false⟩
        | .ok cm =>
            ⟨[⟨"Retrieved twitter account data for " ++ jsAsString (c "username")
              ++ " from the Elfa AI API:\n"
              ++ cm ++ rawResponseSep ++ stringify2 body,
              some "ELFA_TWITTER_ACCOUNT_STATS"⟩], [req], true⟩
    else
      ⟨[⟨"Unable to retieve twitter account stats for the provided username. Invalid content provided.",
        none⟩], [], false⟩

/-! ## Field-shape predicates and schema conformance

The zod schemas (`getSmartMentionsSchema`, `getTopMentionsSchema`,
`getSearchMentionsByKeywordsSchema`, `getTrendingTokensSchema`,
`getTwitterAccountStatsSchema`) declare, per field, a primitive type and
whether the field is optional.  The predicates below express "has the
declared primitive type" / "absent or of the declared type" for one
field value. -/

/-- The value is a string. -/
def isStrV : JSVal → Bool
  | .vStr _ => true
  | _ => false

/-- The value is a number. -/
def isNumV : JSVal → Bool
  | .vNum _ => true
  | _ => false

/-- The value is a boolean. -/
def isBoolV : JSVal → Bool
  | .vBool _ => true
  | _ => false

/-- The value is absent (`undefined`) or a string. -/
def strOrUndefined : JSVal → Bool
  | .vStr _ => true
  | .vUndefined => true
  | _ => false

/-- The value is absent (`undefined`) or a number. -/
def numOrUndefined : JSVal → Bool
  | .vNum _ => true
  | .vUndefined => true
  | _ => false

/-- The value is absent (`undefined`) or a boolean. -/
def boolOrUndefined : JSVal → Bool
  | .vBool _ => true
  | .vUndefined => true
  | _ => false

/-- Modelled from the spec (§4.2): an extraction output for Smart
Mentions (schema `getSmartMentionsSchema`: `limit` and `offset` both
optional numbers) is malformed when a present field has the wrong
primitive type. -/
def smartMentionsMalformed (c : Content) : Bool :=
  !(numOrUndefined (c "limit") && numOrUndefined (c "offset"))

/-- Modelled from the spec (§4.2): malformed for Top Mentions (schema
`getTopMentionsSchema`: required string `ticker`; optional `timeWindow`,
`page`, `pageSize`, `includeAccountDetails`). -/
def topMentionsMalformed (c : Content) : Bool :=
  !(isStrV (c "ticker") && strOrUndefined (c "timeWindow")
    && numOrUndefined (c "page") && numOrUndefined (c "pageSize")
    && boolOrUndefined (c "includeAccountDetails"))

/-- Modelled from the spec (§4.2): malformed for Search Mentions (schema
`getSearchMentionsByKeywordsSchema`: required `keywords`, `from`, `to`;
optional number `limit`). -/
def searchMentionsMalformed (c : Content) : Bool :=
  !(isStrV (c "keywords") && isNumV (c "from") && isNumV (c "to")
    && numOrUndefined (c "limit"))

/-- Modelled from the spec (§4.2): malformed for Twitter Account Stats
(schema `getTwitterAccountStatsSchema`: required string `username`). -/
def accountStatsMalformed (c : Content) : Bool :=
  !(isStrV (c "username"))

/-- Modelled from the spec (§4.2): malformed for Trending Tokens (schema
`getTrendingTokensSchema`: `timeWindow`, `page`, `pageSize`,
`minMentions`, all optional). -/
def trendingTokensMalformed (c : Content) : Bool :=
  !(strOrUndefined (c "timeWindow") && numOrUndefined (c "page")
    && numOrUndefined (c "pageSize") && numOrUndefined (c "minMentions"))

/-! ## Spec-side query parameters (for the refinement claims)

Modelled from the spec (§6): per action, the dispatcher's query
parameters are the extracted values with the declared defaults
substituted for every omitted optional field. -/

/-- Modelled from the spec: Smart Mentions query, defaults
`limit=100`, `offset=0`. -/
def specSmartMentionsQuery (c : Content) : List (String × JSVal) :=
  [("limit", if c "limit" = .vUndefined then .vNum 100 else c "limit"),
   ("offset", if c "offset" = .vUndefined then .vNum 0 else c "offset")]

/-- Modelled from the spec: Top Mentions query, `ticker` required and
defaults `timeWindow="1h"`, `page=1`, `pageSize=10`,
`includeAccountDetails=false`. -/
def specTopMentionsQuery (c : Content) : List (String × JSVal) :=
  [("ticker", c "ticker"),
   ("timeWindow", if c "timeWindow" = .vUndefined then .vStr "1h" else c "timeWindow"),
   ("page", if c "page" = .vUndefined then .vNum 1 else c "page"),
   ("pageSize", if c "pageSize" = .vUndefined then .vNum 10 else c "pageSize"),
   ("includeAccountDetails",
    if c "includeAccountDetails" = .vUndefined then .vBool false
    else c "includeAccountDetails")]

/-- Modelled from the spec: Search Mentions query, `keywords`, `from`,
`to` required and default `limit=20`. -/
def specSearchMentionsQuery (c : Content) : List (String × JSVal) :=
  [("keywords", c "keywords"),
   ("from", c "from"),
   ("to", c "to"),
   ("limit", if c "limit" = .vUndefined then .vNum 20 else c "limit")]

/-- Modelled from the spec: Trending Tokens query, defaults
`timeWindow="24h"`, `page=1`, `pageSize=50`, `minMentions=5`. -/
def specTrendingTokensQuery (c : Content) : List (String × JSVal) :=
  [("timeWindow", if c "timeWindow" = .vUndefined then .vStr "24h" else c "timeWindow"),
   ("page", if c "page" = .vUndefined then .vNum 1 else c "page"),
   ("pageSize", if c "pageSize" = .vUndefined then .vNum 50 else c "pageSize"),
   ("minMentions", if c "minMentions" = .vUndefined then .vNum 5 else c "minMentions")]

/-- Modelled from the spec: Account Stats query, `username` required,
no defaults. -/
def specAccountStatsQuery (c : Content) : List (String × JSVal) :=
  [("username", c "username")]

/-! ## Concrete fixtures -/

/-- A runtime whose settings hold both configuration values. -/
def rtElfa : Runtime :=
  ⟨fun k => if k = "ELFA_AI_BASE_URL" then some "https://api.elfa.ai"
    else if k = "ELFA_AI_API_KEY" then some "test-key" else none⟩

/-- A runtime whose settings lookup returns nothing. -/
def rtNone : Runtime := ⟨fun _ => none⟩

/-- A runtime with an empty base-URL setting and a key setting. -/
def rtMixed : Runtime :=
  ⟨fun k => if k = "ELFA_AI_BASE_URL" then some ""
    else if k = "ELFA_AI_API_KEY" then some "key1" else none⟩

/-- An environment with both variables set. -/
def envElfa : Env :=
  ⟨fun k => if k = "ELFA_AI_BASE_URL" then some "https://api.elfa.ai"
    else if k = "ELFA_AI_API_KEY" then some "test-key" else none⟩

/-- An empty environment. -/
def envNone : Env := ⟨fun _ => none⟩

/-- An extraction output carrying no field at all. -/
def cEmpty : Content := fun _ => .vUndefined

/-- Top Mentions extraction yielding only `ticker = "SOL"`. -/
def cTickerSOL : Content :=
  fun k => if k = "ticker" then .vStr "SOL" else .vUndefined

/-- Search Mentions extraction with `from` and `to` but no `keywords`. -/
def cSearchNoKeywords : Content :=
  fun k => if k = "from" then .vNum 1738675001
    else if k = "to" then .vNum 1738775001 else .vUndefined

/-- Trending Tokens extraction with a string `timeWindow` and a
wrong-typed `page` (a string where the schema declares a number). -/
def cTrendBadPage : Content :=
  fun k => if k = "timeWindow" then .vStr "24h"
    else if k = "page" then .vStr "notANumber" else .vUndefined

/-- An extraction output satisfying all five guards at once. -/
def cAll : Content := fun k =>
  if k = "ticker" ∨ k = "keywords" ∨ k = "timeWindow" ∨ k = "username" then
    .vStr "sol"
  else if k = "includeAccountDetails" then .vBool true
  else .vNum 7

/-- The Ping scenario's mock 200 response body. -/
def pingBody : Json := .jObj [("status", .jStr "ok")]

/-- A small mock response body for the parameterized actions. -/
def sampleBody : Json :=
  .jObj [("data", .jArr [.jNum 1, .jNull]), ("note", .jStr "mock")]

/-- Externals where every collaborator succeeds, extraction yielding `c`. -/
def extWith (c : Content) : Externals :=
  ⟨.ok c, fun _ => .ok sampleBody, fun _ => .ok "A short narrative summary."⟩

/-- Externals where extraction and generation throw but HTTP answers the
Ping scenario's 200 body. -/
def extPing : Externals :=
  ⟨.error "Unexpected extraction failure", fun _ => .ok pingBody,
   fun _ => .error "no generation"⟩

/-- Externals where every collaborator throws; the HTTP error carries an
upstream 401 message. -/
def extFail : Externals :=
  ⟨.error "model unavailable", fun _ => .error "Request failed with status code 401",
   fun _ => .error "Request failed with status code 401"⟩

/-- Externals with the same HTTP transport as `extPing` but a succeeding
extraction and generation. -/
def extPing2 : Externals :=
  ⟨.ok cEmpty, fun _ => .ok pingBody, fun _ => .ok "all good"⟩

/-! ## Guard characterizations -/

/-- `typeof v === "string"` holds exactly for string values. -/
theorem jsTypeofStr_eq (v : JSVal) :
    jsStrictEq (jsTypeof v) (.vStr "string") = isStrV v := by
  cases v <;> rfl

/-- `typeof v === "number"` holds exactly for number values. -/
theorem jsTypeofNum_eq (v : JSVal) :
    jsStrictEq (jsTypeof v) (.vStr "number") = isNumV v := by
  cases v <;> rfl

/-- `typeof v === "boolean"` holds exactly for boolean values. -/
theorem jsTypeofBool_eq (v : JSVal) :
    jsStrictEq (jsTypeof v) (.vStr "boolean") = isBoolV v := by
  cases v <;> rfl

/-- `typeof v === void 0` is always false: `typeof` yields a string,
never `undefined`. -/
theorem jsTypeofUndef_false (v : JSVal) :
    jsStrictEq (jsTypeof v) .vUndefined = false := by
  cases v <;> rfl

/-- `v === void 0 || typeof v === "string"` means: absent or a string. -/
theorem undef_or_string_eq (v : JSVal) :
    (jsStrictEq v .vUndefined || jsStrictEq (jsTypeof v) (.vStr "string"))
      = strOrUndefined v := by
  cases v <;> rfl

/-- `v === void 0 || typeof v === "number"` means: absent or a number. -/
theorem undef_or_number_eq (v : JSVal) :
    (jsStrictEq v .vUndefined || jsStrictEq (jsTypeof v) (.vStr "number"))
      = numOrUndefined v := by
  cases v <;> rfl

/-- `v === void 0 || typeof v === "boolean"` means: absent or a boolean. -/
theorem undef_or_boolean_eq (v : JSVal) :
    (jsStrictEq v .vUndefined || jsStrictEq (jsTypeof v) (.vStr "boolean"))
      = boolOrUndefined v := by
  cases v <;> rfl

/-- `typeof v === "number" || v === void 0` (the Search Mentions order)
means: absent or a number. -/
theorem number_or_undef_eq (v : JSVal) :
    (jsStrictEq (jsTypeof v) (.vStr "number") || jsStrictEq v .vUndefined)
      = numOrUndefined v := by
  cases v <;> rfl

/-- The Smart Mentions guard requires both optional fields present as
numbers. -/
theorem isGetSmartMentionsContent_eq (c : Content) :
    isGetSmartMentionsContent c = (isNumV (c "limit") && isNumV (c "offset")) := by
  simp only [isGetSmartMentionsContent, jsTypeofNum_eq]

/-- `v === void 0 || isStrV v` collapses to `strOrUndefined v`. -/
theorem undef_or_isStrV (v : JSVal) :
    (jsStrictEq v .vUndefined || isStrV v) = strOrUndefined v := by
  cases v <;> rfl

/-- `v === void 0 || isNumV v` collapses to `numOrUndefined v`. -/
theorem undef_or_isNumV (v : JSVal) :
    (jsStrictEq v .vUndefined || isNumV v) = numOrUndefined v := by
  cases v <;> rfl

/-- `v === void 0 || isBoolV v` collapses to `boolOrUndefined v`. -/
theorem undef_or_isBoolV (v : JSVal) :
    (jsStrictEq v .vUndefined || isBoolV v) = boolOrUndefined v := by
  cases v <;> rfl

/-- `isNumV v || v === void 0` collapses to `numOrUndefined v`. -/
theorem isNumV_or_undefined (v : JSVal) :
    (isNumV v || jsStrictEq v .vUndefined) = numOrUndefined v := by
  cases v <;> rfl

/-- The Top Mentions guard is exactly schema conformance. -/
theorem isGetTopMentionsContent_eq (c : Content) :
    isGetTopMentionsContent c
      = (isStrV (c "ticker") && strOrUndefined (c "timeWindow")
        && numOrUndefined (c "page") && numOrUndefined (c "pageSize")
        && boolOrUndefined (c "includeAccountDetails")) := by
  simp only [isGetTopMentionsContent, jsTypeofStr_eq, jsTypeofNum_eq,
    jsTypeofBool_eq, undef_or_isStrV, undef_or_isNumV, undef_or_isBoolV]

/-- The Search Mentions guard is exactly schema conformance. -/
theorem isGetSearchMentionsByKeywordsContent_eq (c : Content) :
    isGetSearchMentionsByKeywordsContent c
      = (isStrV (c "keywords") && isNumV (c "from") && isNumV (c "to")
        && numOrUndefined (c "limit")) := by
  simp only [isGetSearchMentionsByKeywordsContent, jsTypeofStr_eq,
    jsTypeofNum_eq, isNumV_or_undefined]

/-- The Trending Tokens guard collapses to "the `timeWindow` field is a
string": every `typeof x === void 0` clause is identically false, so all
disjuncts except the first vanish. -/
theorem isGetTrendingTokensContent_eq (c : Content) :
    isGetTrendingTokensContent c = isStrV (c "timeWindow") := by
  simp only [isGetTrendingTokensContent, jsTypeofStr_eq, jsTypeofNum_eq,
    jsTypeofUndef_false, Bool.false_and, Bool.or_false]

/-- The Account Stats guard is exactly schema conformance. -/
theorem isGetTwitterAccountStatsContent_eq (c : Content) :
    isGetTwitterAccountStatsContent c = isStrV (c "username") := by
  simp only [isGetTwitterAccountStatsContent, jsTypeofStr_eq]

/-! ## Handler case characterizations -/

/-- The Ping handler by cases on the HTTP outcome. -/
theorem pingHandler_cases (rt : Runtime) (ext : Externals) :
    (∀ b, ext.http (requestFor rt "/v1/ping" []) = .ok b →
      elfaPingHandler rt ext =
        ⟨[⟨"Elfa AI API is up and running. Response: " ++ stringifyCompact b,
          some "ELFA_PING"⟩], [requestFor rt "/v1/ping" []], true⟩)
    ∧ (∀ e, ext.http (requestFor rt "/v1/ping" []) = .error e →
      elfaPingHandler rt ext =
        ⟨[⟨"Elfa AI API is down. Please check the API status.\nError:\n" ++ e,
          some "ELFA_PING"⟩], [requestFor rt "/v1/ping" []], false⟩) := by
  refine ⟨fun b hb => ?_, fun e he => ?_⟩
  all_goals simp_all [elfaPingHandler]

/-- The Key Status handler by cases on the HTTP outcome. -/
theorem apiKeyStatusHandler_cases (rt : Runtime) (ext : Externals) :
    (∀ b, ext.http (requestFor rt "/v1/key-status" []) = .ok b →
      elfaApiKeyStatusHandler rt ext =
        ⟨[⟨"Elfa AI API key status. Response: " ++ stringifyCompact b,
          some "ELFA_API_KEY_STATUS"⟩], [requestFor rt "/v1/key-status" []], true⟩)
    ∧ (∀ e, ext.http (requestFor rt "/v1/key-status" []) = .error e →
      elfaApiKeyStatusHandler rt ext =
        ⟨[⟨"Failed to get api key status from Elfa AI. Please check the your API key.\nError:\n" ++ e,
          some "ELFA_API_KEY_STATUS"⟩], [requestFor rt "/v1/key-status" []], false⟩) := by
  refine ⟨fun b hb => ?_, fun e he => ?_⟩
  all_goals simp_all [elfaApiKeyStatusHandler]

/-- The Smart Mentions handler by cases on the pipeline outcomes. -/
theorem smartMentionsHandler_cases (rt : Runtime) (ext : Externals) :
    (∀ e, ext.extraction = .error e →
      elfaGetSmartMentionsHandler rt ext =
        ⟨[⟨"Failed to get smart mentions from Elfa AI API.\nError:\n" ++ e,
          some "ELFA_GET_SMART_MENTIONS"⟩], [], false⟩)
    ∧ (∀ c, ext.extraction = .ok c → isGetSmartMentionsContent c = false →
      elfaGetSmartMentionsHandler rt ext =
        ⟨[⟨"Unable to process get smart mentions request. Invalid content provided.",
          none⟩], [], false⟩)
    ∧ (∀ c e, ext.extraction = .ok c → isGetSmartMentionsContent c = true →
      ext.http (smartMentionsRequest rt c) = .error e →
      elfaGetSmartMentionsHandler rt ext =
        ⟨[⟨"Failed to get smart mentions from Elfa AI API.\nError:\n" ++ e,
          some "ELFA_GET_SMART_MENTIONS"⟩], [smartMentionsRequest rt c], false⟩)
    ∧ (∀ c b e, ext.extraction = .ok c → isGetSmartMentionsContent c = true →
      ext.http (smartMentionsRequest rt c) = .ok b →
      ext.summarize (smartMentionsPrompt b) = .error e →
      elfaGetSmartMentionsHandler rt ext =
        ⟨[⟨"Failed to get smart mentions from Elfa AI API.\nError:\n" ++ e,
          some "ELFA_GET_SMART_MENTIONS"⟩], [smartMentionsRequest rt c], false⟩)
    ∧ (∀ c b s, ext.extraction = .ok c → isGetSmartMentionsContent c = true →
      ext.http (smartMentionsRequest rt c) = .ok b →
      ext.summarize (smartMentionsPrompt b) = .ok s →
      elfaGetSmartMentionsHandler rt ext =
        ⟨[⟨"Retrieves tweets by smart accounts with smart engagement from the Elfa AI API:\n"
          ++ s ++ rawResponseSep ++ stringify2 b,
          some "ELFA_GET_SMART_MENTIONS"⟩], [smartMentionsRequest rt c], true⟩) := by
  refine ⟨fun e hx => ?_, fun c hx hg => ?_, fun c e hx hg hh => ?_,
    fun c b e hx hg hh hs => ?_, fun c b s hx hg hh hs => ?_⟩
  all_goals simp_all [elfaGetSmartMentionsHandler]

/-- The Top Mentions handler by cases on the pipeline outcomes. -/
theorem topMentionsHandler_cases (rt : Runtime) (ext : Externals) :
    (∀ e, ext.extraction = .error e →
      elfaGetTopMentionsHandler rt ext =
        ⟨[⟨"Failed to get top mentions for provided ticker from Elfa AI API.\nError:\n" ++ e,
          some "ELFA_GET_TOP_MENTIONS"⟩], [], false⟩)
    ∧ (∀ c, ext.extraction = .ok c → isGetTopMentionsContent c = false →
      elfaGetTopMentionsHandler rt ext =
        ⟨[⟨"Unable to process get top mentions for the requested ticker. Invalid content provided.",
          none⟩], [], false⟩)
    ∧ (∀ c e, ext.extraction = .ok c → isGetTopMentionsContent c = true →
      ext.http (topMentionsRequest rt c) = .error e →
      elfaGetTopMentionsHandler rt ext =
        ⟨[⟨"Failed to get top mentions for provided ticker from Elfa AI API.\nError:\n" ++ e,
          some "ELFA_GET_TOP_MENTIONS"⟩], [topMentionsRequest rt c], false⟩)
    ∧ (∀ c b e, ext.extraction = .ok c → isGetTopMentionsContent c = true →
      ext.http (topMentionsRequest rt c) = .ok b →
      ext.summarize (topMentionsPrompt b) = .error e →
      elfaGetTopMentionsHandler rt ext =
        ⟨[⟨"Failed to get top mentions for provided ticker from Elfa AI API.\nError:\n" ++ e,
          some "ELFA_GET_TOP_MENTIONS"⟩], [topMentionsRequest rt c], false⟩)
    ∧ (∀ c b s, ext.extraction = .ok c → isGetTopMentionsContent c = true →
      ext.http (topMentionsRequest rt c) = .ok b →
      ext.summarize (topMentionsPrompt b) = .ok s →
      elfaGetTopMentionsHandler rt ext =
        ⟨[⟨"Retrieved top tweets for the " ++ jsAsString (c "ticker") ++ ":\n"
          ++ s ++ rawResponseSep ++ stringify2 b,
          some "ELFA_GET_TOP_MENTIONS"⟩], [topMentionsRequest rt c], true⟩) := by
  refine ⟨fun e hx => ?_, fun c hx hg => ?_, fun c e hx hg hh => ?_,
    fun c b e hx hg hh hs => ?_, fun c b s hx hg hh hs => ?_⟩
  all_goals simp_all [elfaGetTopMentionsHandler]

/-- The Search Mentions handler by cases on the pipeline outcomes. -/
theorem searchMentionsHandler_cases (rt : Runtime) (ext : Externals) :
    (∀ e, ext.extraction = .error e →
      elfaGetSearchMentionsByKeywordsHandler rt ext =
        ⟨[⟨"Failed to get tweets for the mentioned keywords from Elfa AI API.\nError:\n" ++ e,
          some "ELFA_SEARCH_MENTIONS_BY_KEYWORDS"⟩], [], false⟩)
    ∧ (∀ c, ext.extraction = .ok c → isGetSearchMentionsByKeywordsContent c = false →
      elfaGetSearchMentionsByKeywordsHandler rt ext =
        ⟨[⟨"Unable to search for tweets by the keywords provided. Invalid content provided.",
          none⟩], [], false⟩)
    ∧ (∀ c e, ext.extraction = .ok c → isGetSearchMentionsByKeywordsContent c = true →
      ext.http (searchMentionsRequest rt c) = .error e →
      elfaGetSearchMentionsByKeywordsHandler rt ext =
        ⟨[⟨"Failed to get tweets for the mentioned keywords from Elfa AI API.\nError:\n" ++ e,
          some "ELFA_SEARCH_MENTIONS_BY_KEYWORDS"⟩], [searchMentionsRequest rt c], false⟩)
    ∧ (∀ c b e, ext.extraction = .ok c → isGetSearchMentionsByKeywordsContent c = true →
      ext.http (searchMentionsRequest rt c) = .ok b →
      ext.summarize (searchMentionsPrompt b) = .error e →
      elfaGetSearchMentionsByKeywordsHandler rt ext =
        ⟨[⟨"Failed to get tweets for the mentioned keywords from Elfa AI API.\nError:\n" ++ e,
          some "ELFA_SEARCH_MENTIONS_BY_KEYWORDS"⟩], [searchMentionsRequest rt c], false⟩)
    ∧ (∀ c b s, ext.extraction = .ok c → isGetSearchMentionsByKeywordsContent c = true →
      ext.http (searchMentionsRequest rt c) = .ok b →
      ext.summarize (searchMentionsPrompt b) = .ok s →
      elfaGetSearchMentionsByKeywordsHandler rt ext =
        ⟨[⟨"Retrieved tweets for the " ++ jsAsString (c "keywords")
          ++ " keywords from the Elfa AI API:\n"
          ++ s ++ rawResponseSep ++ stringify2 b,
          some "ELFA_SEARCH_MENTIONS_BY_KEYWORDS"⟩], [searchMentionsRequest rt c], true⟩) := by
  refine ⟨fun e hx => ?_, fun c hx hg => ?_, fun c e hx hg hh => ?_,
    fun c b e hx hg hh hs => ?_, fun c b s hx hg hh hs => ?_⟩
  all_goals simp_all [elfaGetSearchMentionsByKeywordsHandler]

/-- The Trending Tokens handler by cases on the pipeline outcomes. -/
theorem trendingTokensHandler_cases (rt : Runtime) (ext : Externals) :
    (∀ e, ext.extraction = .error e →
      elfaGetTrendingTokensHandler rt ext =
        ⟨[⟨"Failed to get trending tokens from Elfa AI API.\nError:\n" ++ e,
          some "ELFA_GET_TRENDING_TOKENS"⟩], [], false⟩)
    ∧ (∀ c, ext.extraction = .ok c → isGetTrendingTokensContent c = false →
      elfaGetTrendingTokensHandler rt ext =
        ⟨[⟨"Unable to process get trending tokens request. Invalid content provided.",
          none⟩], [], false⟩)
    ∧ (∀ c e, ext.extraction = .ok c → isGetTrendingTokensContent c = true →
      ext.http (trendingTokensRequest rt c) = .error e →
      elfaGetTrendingTokensHandler rt ext =
        ⟨[⟨"Failed to get trending tokens from Elfa AI API.\nError:\n" ++ e,
          some "ELFA_GET_TRENDING_TOKENS"⟩], [trendingTokensRequest rt c], false⟩)
    ∧ (∀ c b e, ext.extraction = .ok c → isGetTrendingTokensContent c = true →
      ext.http (trendingTokensRequest rt c) = .ok b →
      ext.summarize (trendingTokensPrompt b) = .error e →
      elfaGetTrendingTokensHandler rt ext =
        ⟨[⟨"Failed to get trending tokens from Elfa AI API.\nError:\n" ++ e,
          some "ELFA_GET_TRENDING_TOKENS"⟩], [trendingTokensRequest rt c], false⟩)
    ∧ (∀ c b s, ext.extraction = .ok c → isGetTrendingTokensContent c = true →
      ext.http (trendingTokensRequest rt c) = .ok b →
      ext.summarize (trendingTokensPrompt b) = .ok s →
      elfaGetTrendingTokensHandler rt ext =
        ⟨[⟨"Retrieves trending tokens by twitter mentions from the Elfa AI API:\n"
          ++ s ++ rawResponseSep ++ stringify2 b,
          some "ELFA_GET_TRENDING_TOKENS"⟩], [trendingTokensRequest rt c], true⟩) := by
  refine ⟨fun e hx => ?_, fun c hx hg => ?_, fun c e hx hg hh => ?_,
    fun c b e hx hg hh hs => ?_, fun c b s hx hg hh hs => ?_⟩
  all_goals simp_all [elfaGetTrendingTokensHandler]

/-- The Account Stats handler by cases on the pipeline outcomes. -/
theorem accountStatsHandler_cases (rt : Runtime) (ext : Externals) :
    (∀ e, ext.extraction = .error e →
      elfaGetTwitterAccountStatsHandler rt ext =
        ⟨[⟨"Failed to get twitter account data for the mentioned username from Elfa AI API.\nError:\n" ++ e,
          some "ELFA_TWITTER_ACCOUNT_STATS"⟩], [], false⟩)
    ∧ (∀ c, ext.extraction = .ok c → isGetTwitterAccountStatsContent c = false →
      elfaGetTwitterAccountStatsHandler rt ext =
        ⟨[⟨"Unable to retieve twitter account stats for the provided username. Invalid content provided.",
          none⟩], [], false⟩)
    ∧ (∀ c e, ext.extraction = .ok c → isGetTwitterAccountStatsContent c = true →
      ext.http (accountStatsRequest rt c) = .error e →
      elfaGetTwitterAccountStatsHandler rt ext =
        ⟨[⟨"Failed to get twitter account data for the mentioned username from Elfa AI API.\nError:\n" ++ e,
          some "ELFA_TWITTER_ACCOUNT_STATS"⟩], [accountStatsRequest rt c], false⟩)
    ∧ (∀ c b e, ext.extraction = .ok c → isGetTwitterAccountStatsContent c = true →
      ext.http (accountStatsRequest rt c) = .ok b →
      ext.summarize (accountStatsPrompt c b) = .error e →
      elfaGetTwitterAccountStatsHandler rt ext =
        ⟨[⟨"Failed to get twitter account data for the mentioned username from Elfa AI API.\nError:\n" ++ e,
          some "ELFA_TWITTER_ACCOUNT_STATS"⟩], [accountStatsRequest rt c], false⟩)
    ∧ (∀ c b s, ext.extraction = .ok c → isGetTwitterAccountStatsContent c = true →
      ext.http (accountStatsRequest rt c) = .ok b →
      ext.summarize (accountStatsPrompt c b) = .ok s →
      elfaGetTwitterAccountStatsHandler rt ext =
        ⟨[⟨"Retrieved twitter account data for " ++ jsAsString (c "username")
          ++ " from the Elfa AI API:\n"
          ++ s ++ rawResponseSep ++ stringify2 b,
          some "ELFA_TWITTER_ACCOUNT_STATS"⟩], [accountStatsRequest rt c], true⟩) := by
  refine ⟨fun e hx => ?_, fun c hx hg => ?_, fun c e hx hg hh => ?_,
    fun c b e hx hg hh hs => ?_, fun c b s hx hg hh hs => ?_⟩
  all_goals simp_all [elfaGetTwitterAccountStatsHandler]

/-! ## Configuration lemmas -/

/-- On any missing or empty field, the schema parse outcome is an error
whose message carries the issue text of every bad field. -/
theorem configOutcome_error_spec (b k : Option String)
    (hbad : b = none ∨ b = some "" ∨ k = none ∨ k = some "") :
    (∀ cfg, elfaAiConfigOutcome b k ≠ .ok cfg)
    ∧ (b = none →
        strHasSub (exceptErrMsg (elfaAiConfigOutcome b k))
          "ELFA_AI_BASE_URL: Required" = true)
    ∧ (b = some "" →
        strHasSub (exceptErrMsg (elfaAiConfigOutcome b k))
          "ELFA_AI_BASE_URL: Base URL is required for interacting with Elfa AI" = true)
    ∧ (k = none →
        strHasSub (exceptErrMsg (elfaAiConfigOutcome b k))
          "ELFA_AI_API_KEY: Required" = true)
    ∧ (k = some "" →
        strHasSub (exceptErrMsg (elfaAiConfigOutcome b k))
          "ELFA_AI_API_KEY: API key is required for interacting with Elfa AI" = true) := by
  rcases b with _ | sb
  · rcases k with _ | sk
    · have hout : elfaAiConfigOutcome none none
          = .error "Elfa AI configuration validation failed:\nELFA_AI_BASE_URL: Required\nELFA_AI_API_KEY: Required" := rfl
      rw [hout]
      refine ⟨fun cfg h => Except.noConfusion h, ?_, ?_, ?_, ?_⟩ <;> intro h <;>
        first | decide | simp_all
    · by_cases hsk : sk = ""
      · subst hsk
        have hout : elfaAiConfigOutcome none (some "")
            = .error "Elfa AI configuration validation failed:\nELFA_AI_BASE_URL: Required\nELFA_AI_API_KEY: API key is required for interacting with Elfa AI" := rfl
        rw [hout]
        refine ⟨fun cfg h => Except.noConfusion h, ?_, ?_, ?_, ?_⟩ <;> intro h <;>
          first | decide | simp_all
      · have hout : elfaAiConfigOutcome none (some sk)
            = .error "Elfa AI configuration validation failed:\nELFA_AI_BASE_URL: Required" := by
          simp [elfaAiConfigOutcome, elfaAiEnvSchemaIssues, zodFieldIssues, hsk]; rfl
        rw [hout]
        refine ⟨fun cfg h => Except.noConfusion h, ?_, ?_, ?_, ?_⟩ <;> intro h <;>
          first | decide | simp_all
  · by_cases hsb : sb = ""
    · subst hsb
      rcases k with _ | sk
      · have hout : elfaAiConfigOutcome (some "") none
            = .error "Elfa AI configuration validation failed:\nELFA_AI_BASE_URL: Base URL is required for interacting with Elfa AI\nELFA_AI_API_KEY: Required" := rfl
        rw [hout]
        refine ⟨fun cfg h => Except.noConfusion h, ?_, ?_, ?_, ?_⟩ <;> intro h <;>
          first | decide | simp_all
      · by_cases hsk : sk = ""
        · subst hsk
          have hout : elfaAiConfigOutcome (some "") (some "")
              = .error "Elfa AI configuration validation failed:\nELFA_AI_BASE_URL: Base URL is required for interacting with Elfa AI\nELFA_AI_API_KEY: API key is required for interacting with Elfa AI" := rfl
          rw [hout]
          refine ⟨fun cfg h => Except.noConfusion h, ?_, ?_, ?_, ?_⟩ <;> intro h <;>
            first | decide | simp_all
        · have hout : elfaAiConfigOutcome (some "") (some sk)
              = .error "Elfa AI configuration validation failed:\nELFA_AI_BASE_URL: Base URL is required for interacting with Elfa AI" := by
            simp [elfaAiConfigOutcome, elfaAiEnvSchemaIssues, zodFieldIssues, hsk]; rfl
          rw [hout]
          refine ⟨fun cfg h => Except.noConfusion h, ?_, ?_, ?_, ?_⟩ <;> intro h <;>
            first | decide | simp_all
    · rcases k with _ | sk
      · have hout : elfaAiConfigOutcome (some sb) none
            = .error "Elfa AI configuration validation failed:\nELFA_AI_API_KEY: Required" := by
          simp [elfaAiConfigOutcome, elfaAiEnvSchemaIssues, zodFieldIssues, hsb]; rfl
        rw [hout]
        refine ⟨fun cfg h => Except.noConfusion h, ?_, ?_, ?_, ?_⟩ <;> intro h <;>
          first | decide | simp_all
      · by_cases hsk : sk = ""
        · subst hsk
          have hout : elfaAiConfigOutcome (some sb) (some "")
              = .error "Elfa AI configuration validation failed:\nELFA_AI_API_KEY: API key is required for interacting with Elfa AI" := by
            simp [elfaAiConfigOutcome, elfaAiEnvSchemaIssues, zodFieldIssues, hsb]; rfl
          rw [hout]
          refine ⟨fun cfg h => Except.noConfusion h, ?_, ?_, ?_, ?_⟩ <;> intro h <;>
            first | decide | simp_all
        · exact absurd hbad (by simp [hsb, hsk])

/-- On two well-formed fields, the schema parse succeeds with exactly
the resolved values. -/
theorem configOutcome_ok_spec (sb sk : String) (hsb : sb ≠ "") (hsk : sk ≠ "") :
    elfaAiConfigOutcome (some sb) (some sk) = .ok ⟨sb, sk⟩ := by
  simp [elfaAiConfigOutcome, elfaAiEnvSchemaIssues, zodFieldIssues, hsb, hsk]

/-! ## Claim C1 (corrected) -/

/-- **C1 counterexample**: with base URL and API key absent from both
the settings and the environment, the shared `validate` body throws an
`Error` (modelled by `Except.error`) rather than returning `false`; the
thrown message does enumerate both missing fields. -/
theorem claim1_validate_returns_false_cex :
    actionValidate rtNone envNone
      = .error "Elfa AI configuration validation failed:\nELFA_AI_BASE_URL: Required\nELFA_AI_API_KEY: Required"
    ∧ actionValidate rtNone envNone ≠ .ok false := by
  refine ⟨rfl, fun h => ?_⟩
  rw [show actionValidate rtNone envNone
    = .error "Elfa AI configuration validation failed:\nELFA_AI_BASE_URL: Required\nELFA_AI_API_KEY: Required"
    from rfl] at h
  exact Except.noConfusion h

/-- **C1 (amended)**: for every one of the seven action descriptors
(they share the `validate` body `actionValidate` verbatim) and every
runtime in which the resolved base URL or API key is missing or empty,
`validate` throws an error — it never returns `false` (nor `true`) —
and the thrown message enumerates every missing/empty field, not only
the first. -/
theorem claim1_validate_throws_enumerating_missing_fields
    (rt : Runtime) (env : Env)
    (hbad : resolveField rt env "ELFA_AI_BASE_URL" = none
      ∨ resolveField rt env "ELFA_AI_BASE_URL" = some ""
      ∨ resolveField rt env "ELFA_AI_API_KEY" = none
      ∨ resolveField rt env "ELFA_AI_API_KEY" = some "") :
    (∀ b, actionValidate rt env ≠ .ok b)
    ∧ (resolveField rt env "ELFA_AI_BASE_URL" = none →
        strHasSub (exceptErrMsg (actionValidate rt env))
          "ELFA_AI_BASE_URL: Required" = true)
    ∧ (resolveField rt env "ELFA_AI_BASE_URL" = some "" →
        strHasSub (exceptErrMsg (actionValidate rt env))
          "ELFA_AI_BASE_URL: Base URL is required for interacting with Elfa AI" = true)
    ∧ (resolveField rt env "ELFA_AI_API_KEY" = none →
        strHasSub (exceptErrMsg (actionValidate rt env))
          "ELFA_AI_API_KEY: Required" = true)
    ∧ (resolveField rt env "ELFA_AI_API_KEY" = some "" →
        strHasSub (exceptErrMsg (actionValidate rt env))
          "ELFA_AI_API_KEY: API key is required for interacting with Elfa AI" = true) := by
  have h := configOutcome_error_spec
    (resolveField rt env "ELFA_AI_BASE_URL")
    (resolveField rt env "ELFA_AI_API_KEY") hbad
  rcases hv : elfaAiConfigOutcome
      (resolveField rt env "ELFA_AI_BASE_URL")
      (resolveField rt env "ELFA_AI_API_KEY") with m | cfg
  · have hval : actionValidate rt env = .error m := by
      simp [actionValidate, validateElfaAiConfig, hv]
    refine ⟨fun b hb => ?_, fun hbf => ?_, fun hbf => ?_, fun hbf => ?_,
      fun hbf => ?_⟩
    · rw [hval] at hb; exact Except.noConfusion hb
    · have hh := h.2.1 hbf; rw [hv] at hh; rw [hval]; exact hh
    · have hh := h.2.2.1 hbf; rw [hv] at hh; rw [hval]; exact hh
    · have hh := h.2.2.2.1 hbf; rw [hv] at hh; rw [hval]; exact hh
    · have hh := h.2.2.2.2 hbf; rw [hv] at hh; rw [hval]; exact hh
  · exact absurd hv (h.1 cfg)

/-- **C1 witness**: the amended theorem applied to the empty runtime
and environment. -/
theorem claim1_validate_throws_witness :
    strHasSub (exceptErrMsg (actionValidate rtNone envNone))
      "ELFA_AI_BASE_URL: Required" = true :=
  (claim1_validate_throws_enumerating_missing_fields rtNone envNone
    (Or.inl rfl)).2.1 rfl

/-! ## Claim C6 (confirmed) -/

/-- **C6**: the configuration resolver takes, for each field, the
runtime setting when it is set to a non-empty value and otherwise the
environment variable (JavaScript `||`); when both resolved fields are
present and non-empty it produces exactly `\x7bbaseUrl, apiKey\x7d`, and
when either is absent or empty it fails with an error whose message
enumerates every missing/empty field, not just the first. -/
theorem claim6_config_resolution_and_error_enumeration
    (rt : Runtime) (env : Env) :
    (∀ k s, rt.settings k = some s → s ≠ "" → resolveField rt env k = some s)
    ∧ (∀ k, rt.settings k = none → resolveField rt env k = env.vars k)
    ∧ (∀ k, rt.settings k = some "" → resolveField rt env k = env.vars k)
    ∧ (∀ sb sk, resolveField rt env "ELFA_AI_BASE_URL" = some sb → sb ≠ "" →
        resolveField rt env "ELFA_AI_API_KEY" = some sk → sk ≠ "" →
        validateElfaAiConfig rt env = .ok ⟨sb, sk⟩)
    ∧ ((resolveField rt env "ELFA_AI_BASE_URL" = none
        ∨ resolveField rt env "ELFA_AI_BASE_URL" = some ""
        ∨ resolveField rt env "ELFA_AI_API_KEY" = none
        ∨ resolveField rt env "ELFA_AI_API_KEY" = some "") →
        (∀ cfg, validateElfaAiConfig rt env ≠ .ok cfg)
        ∧ (resolveField rt env "ELFA_AI_BASE_URL" = none →
            strHasSub (exceptErrMsg (validateElfaAiConfig rt env))
              "ELFA_AI_BASE_URL: Required" = true)
        ∧ (resolveField rt env "ELFA_AI_BASE_URL" = some "" →
            strHasSub (exceptErrMsg (validateElfaAiConfig rt env))
              "ELFA_AI_BASE_URL: Base URL is required for interacting with Elfa AI" = true)
        ∧ (resolveField rt env "ELFA_AI_API_KEY" = none →
            strHasSub (exceptErrMsg (validateElfaAiConfig rt env))
              "ELFA_AI_API_KEY: Required" = true)
        ∧ (resolveField rt env "ELFA_AI_API_KEY" = some "" →
            strHasSub (exceptErrMsg (validateElfaAiConfig rt env))
              "ELFA_AI_API_KEY: API key is required for interacting with Elfa AI" = true)) := by
  refine ⟨?_, ?_, ?_, ?_, ?_⟩
  · intro k s h hne; simp [resolveField, h, hne]
  · intro k h; simp [resolveField, h]
  · intro k h; simp [resolveField, h]
  · intro sb sk hb hbne hk hkne
    show elfaAiConfigOutcome _ _ = _
    rw [hb, hk]
    exact configOutcome_ok_spec sb sk hbne hkne
  · intro hbad
    exact configOutcome_error_spec
      (resolveField rt env "ELFA_AI_BASE_URL")
      (resolveField rt env "ELFA_AI_API_KEY") hbad

/-- **C6 witness**: an empty base-URL setting falls through to the
environment (resolution order), and the resolver succeeds with the
resolved pair. -/
theorem claim6_config_resolution_witness :
    validateElfaAiConfig rtMixed envElfa = .ok ⟨"https://api.elfa.ai", "key1"⟩ :=
  (claim6_config_resolution_and_error_enumeration rtMixed envElfa).2.2.2.1
    "https://api.elfa.ai" "key1" (by decide) (by decide) (by decide) (by decide)

/-- A true Boolean negation means the negated condition is false. -/
theorem bnot_true_eq_false {b : Bool} (h : (!b) = true) : b = false := by
  cases b
  · rfl
  · exact absurd h (by decide)

/-! ## Request-issuing lemmas -/

/-- After a passing guard, Smart Mentions issues exactly its request,
whatever the transport and generation outcomes. -/
theorem smartMentions_requests_of_valid (rt : Runtime) (ext : Externals)
    (c : Content) (hex : ext.extraction = .ok c)
    (hg : isGetSmartMentionsContent c = true) :
    (elfaGetSmartMentionsHandler rt ext).requests = [smartMentionsRequest rt c] := by
  have hc := smartMentionsHandler_cases rt ext
  rcases hh : ext.http (smartMentionsRequest rt c) with e | b
  · rw [hc.2.2.1 c e hex hg hh]
  · rcases hs : ext.summarize (smartMentionsPrompt b) with e2 | s2
    · rw [hc.2.2.2.1 c b e2 hex hg hh hs]
    · rw [hc.2.2.2.2 c b s2 hex hg hh hs]

/-- After a failing guard, Smart Mentions issues no request and fails. -/
theorem smartMentions_halts_of_invalid (rt : Runtime) (ext : Externals)
    (c : Content) (hex : ext.extraction = .ok c)
    (hg : isGetSmartMentionsContent c = false) :
    (elfaGetSmartMentionsHandler rt ext).requests = []
    ∧ (elfaGetSmartMentionsHandler rt ext).result = false := by
  rw [(smartMentionsHandler_cases rt ext).2.1 c hex hg]
  exact ⟨rfl, rfl⟩

/-- After a passing guard, Top Mentions issues exactly its request. -/
theorem topMentions_requests_of_valid (rt : Runtime) (ext : Externals)
    (c : Content) (hex : ext.extraction = .ok c)
    (hg : isGetTopMentionsContent c = true) :
    (elfaGetTopMentionsHandler rt ext).requests = [topMentionsRequest rt c] := by
  have hc := topMentionsHandler_cases rt ext
  rcases hh : ext.http (topMentionsRequest rt c) with e | b
  · rw [hc.2.2.1 c e hex hg hh]
  · rcases hs : ext.summarize (topMentionsPrompt b) with e2 | s2
    · rw [hc.2.2.2.1 c b e2 hex hg hh hs]
    · rw [hc.2.2.2.2 c b s2 hex hg hh hs]

/-- After a failing guard, Top Mentions issues no request and fails. -/
theorem topMentions_halts_of_invalid (rt : Runtime) (ext : Externals)
    (c : Content) (hex : ext.extraction = .ok c)
    (hg : isGetTopMentionsContent c = false) :
    (elfaGetTopMentionsHandler rt ext).requests = []
    ∧ (elfaGetTopMentionsHandler rt ext).result = false := by
  rw [(topMentionsHandler_cases rt ext).2.1 c hex hg]
  exact ⟨rfl, rfl⟩

/-- After a passing guard, Search Mentions issues exactly its request. -/
theorem searchMentions_requests_of_valid (rt : Runtime) (ext : Externals)
    (c : Content) (hex : ext.extraction = .ok c)
    (hg : isGetSearchMentionsByKeywordsContent c = true) :
    (elfaGetSearchMentionsByKeywordsHandler rt ext).requests
      = [searchMentionsRequest rt c] := by
  have hc := searchMentionsHandler_cases rt ext
  rcases hh : ext.http (searchMentionsRequest rt c) with e | b
  · rw [hc.2.2.1 c e hex hg hh]
  · rcases hs : ext.summarize (searchMentionsPrompt b) with e2 | s2
    · rw [hc.2.2.2.1 c b e2 hex hg hh hs]
    · rw [hc.2.2.2.2 c b s2 hex hg hh hs]

/-- After a failing guard, Search Mentions issues no request and fails. -/
theorem searchMentions_halts_of_invalid (rt : Runtime) (ext : Externals)
    (c : Content) (hex : ext.extraction = .ok c)
    (hg : isGetSearchMentionsByKeywordsContent c = false) :
    (elfaGetSearchMentionsByKeywordsHandler rt ext).requests = []
    ∧ (elfaGetSearchMentionsByKeywordsHandler rt ext).result = false := by
  rw [(searchMentionsHandler_cases rt ext).2.1 c hex hg]
  exact ⟨rfl, rfl⟩

/-- After a passing guard, Trending Tokens issues exactly its request. -/
theorem trendingTokens_requests_of_valid (rt : Runtime) (ext : Externals)
    (c : Content) (hex : ext.extraction = .ok c)
    (hg : isGetTrendingTokensContent c = true) :
    (elfaGetTrendingTokensHandler rt ext).requests
      = [trendingTokensRequest rt c] := by
  have hc := trendingTokensHandler_cases rt ext
  rcases hh : ext.http (trendingTokensRequest rt c) with e | b
  · rw [hc.2.2.1 c e hex hg hh]
  · rcases hs : ext.summarize (trendingTokensPrompt b) with e2 | s2
    · rw [hc.2.2.2.1 c b e2 hex hg hh hs]
    · rw [hc.2.2.2.2 c b s2 hex hg hh hs]

/-- After a failing guard, Trending Tokens issues no request and fails. -/
theorem trendingTokens_halts_of_invalid (rt : Runtime) (ext : Externals)
    (c : Content) (hex : ext.extraction = .ok c)
    (hg : isGetTrendingTokensContent c = false) :
    (elfaGetTrendingTokensHandler rt ext).requests = []
    ∧ (elfaGetTrendingTokensHandler rt ext).result = false := by
  rw [(trendingTokensHandler_cases rt ext).2.1 c hex hg]
  exact ⟨rfl, rfl⟩

/-- After a passing guard, Account Stats issues exactly its request. -/
theorem accountStats_requests_of_valid (rt : Runtime) (ext : Externals)
    (c : Content) (hex : ext.extraction = .ok c)
    (hg : isGetTwitterAccountStatsContent c = true) :
    (elfaGetTwitterAccountStatsHandler rt ext).requests
      = [accountStatsRequest rt c] := by
  have hc := accountStatsHandler_cases rt ext
  rcases hh : ext.http (accountStatsRequest rt c) with e | b
  · rw [hc.2.2.1 c e hex hg hh]
  · rcases hs : ext.summarize (accountStatsPrompt c b) with e2 | s2
    · rw [hc.2.2.2.1 c b e2 hex hg hh hs]
    · rw [hc.2.2.2.2 c b s2 hex hg hh hs]

/-- After a failing guard, Account Stats issues no request and fails. -/
theorem accountStats_halts_of_invalid (rt : Runtime) (ext : Externals)
    (c : Content) (hex : ext.extraction = .ok c)
    (hg : isGetTwitterAccountStatsContent c = false) :
    (elfaGetTwitterAccountStatsHandler rt ext).requests = []
    ∧ (elfaGetTwitterAccountStatsHandler rt ext).result = false := by
  rw [(accountStatsHandler_cases rt ext).2.1 c hex hg]
  exact ⟨rfl, rfl⟩

/-! ## Claim C2 (corrected) -/

/-- **C2 counterexample**: Smart Mentions with omitted `limit`/`offset`
does not dispatch `limit=100, offset=0` — its guard demands both fields
be numbers, so the pipeline halts with no request and returns `false`
(the declared defaults are unreachable). -/
theorem claim2_smart_mentions_omitted_defaults_cex :
    (elfaGetSmartMentionsHandler rtElfa (extWith cEmpty)).requests = []
    ∧ (elfaGetSmartMentionsHandler rtElfa (extWith cEmpty)).result = false := by
  exact ⟨rfl, rfl⟩

/-- **C2 (amended)**: for every extraction output each guard accepts,
the dispatched query parameters equal the extracted values with the
action's declared defaults substituted for every omitted optional
field (Top Mentions with only `ticker="SOL"` resolves to
`timeWindow="1h", page=1, pageSize=10, includeAccountDetails=false`);
Smart Mentions, however, rejects outputs with omitted `limit` or
`offset`, halting with no request instead of applying its defaults. -/
theorem claim2_dispatch_params_equal_extracted_with_defaults
    (rt : Runtime) (ext : Externals) (c : Content)
    (hex : ext.extraction = .ok c) :
    (isGetSmartMentionsContent c = true →
      (elfaGetSmartMentionsHandler rt ext).requests = [smartMentionsRequest rt c]
      ∧ (smartMentionsRequest rt c).params = specSmartMentionsQuery c)
    ∧ (isGetTopMentionsContent c = true →
      (elfaGetTopMentionsHandler rt ext).requests = [topMentionsRequest rt c]
      ∧ (topMentionsRequest rt c).params = specTopMentionsQuery c)
    ∧ (isGetSearchMentionsByKeywordsContent c = true →
      (elfaGetSearchMentionsByKeywordsHandler rt ext).requests
        = [searchMentionsRequest rt c]
      ∧ (searchMentionsRequest rt c).params = specSearchMentionsQuery c)
    ∧ (isGetTrendingTokensContent c = true →
      (elfaGetTrendingTokensHandler rt ext).requests = [trendingTokensRequest rt c]
      ∧ (trendingTokensRequest rt c).params = specTrendingTokensQuery c)
    ∧ (isGetTwitterAccountStatsContent c = true →
      (elfaGetTwitterAccountStatsHandler rt ext).requests
        = [accountStatsRequest rt c]
      ∧ (accountStatsRequest rt c).params = specAccountStatsQuery c)
    ∧ ((c "limit" = .vUndefined ∨ c "offset" = .vUndefined) →
      (elfaGetSmartMentionsHandler rt ext).requests = []
      ∧ (elfaGetSmartMentionsHandler rt ext).result = false) := by
  refine ⟨fun hg => ⟨smartMentions_requests_of_valid rt ext c hex hg, ?_⟩,
    fun hg => ⟨topMentions_requests_of_valid rt ext c hex hg, ?_⟩,
    fun hg => ⟨searchMentions_requests_of_valid rt ext c hex hg, ?_⟩,
    fun hg => ⟨trendingTokens_requests_of_valid rt ext c hex hg, ?_⟩,
    fun hg => ⟨accountStats_requests_of_valid rt ext c hex hg, ?_⟩,
    fun homit => ?_⟩
  · simp [smartMentionsRequest, requestFor, specSmartMentionsQuery, withDefault]
  · simp [topMentionsRequest, requestFor, specTopMentionsQuery, withDefault]
  · simp [searchMentionsRequest, requestFor, specSearchMentionsQuery, withDefault]
  · simp [trendingTokensRequest, requestFor, specTrendingTokensQuery, withDefault]
  · simp [accountStatsRequest, requestFor, specAccountStatsQuery]
  · have hg : isGetSmartMentionsContent c = false := by
      rw [isGetSmartMentionsContent_eq]
      rcases homit with h | h <;> simp [h, isNumV]
    exact smartMentions_halts_of_invalid rt ext c hex hg

/-- **C2 witness**: the Top Mentions scenario — extraction yields only
`ticker="SOL"`, the dispatched parameters resolve to the full defaulted
set. -/
theorem claim2_top_mentions_sol_witness :
    (elfaGetTopMentionsHandler rtElfa (extWith cTickerSOL)).requests
      = [topMentionsRequest rtElfa cTickerSOL]
    ∧ (topMentionsRequest rtElfa cTickerSOL).params
      = [("ticker", .vStr "SOL"), ("timeWindow", .vStr "1h"), ("page", .vNum 1),
         ("pageSize", .vNum 10), ("includeAccountDetails", .vBool false)] := by
  have h := (claim2_dispatch_params_equal_extracted_with_defaults rtElfa
    (extWith cTickerSOL) cTickerSOL rfl).2.1 (by decide)
  refine ⟨h.1, ?_⟩
  rw [h.2]
  decide

/-! ## Claim C3 (corrected) -/

/-- **C3 counterexample**: a Trending Tokens extraction output with a
wrong-typed `page` (a string) is malformed, yet because its `timeWindow`
is a string the guard accepts it: the handler issues the HTTP request
and returns `true` instead of halting. -/
theorem claim3_trending_wrong_typed_dispatches_cex :
    trendingTokensMalformed cTrendBadPage = true
    ∧ (elfaGetTrendingTokensHandler rtElfa (extWith cTrendBadPage)).requests
        = [trendingTokensRequest rtElfa cTrendBadPage]
    ∧ (elfaGetTrendingTokensHandler rtElfa (extWith cTrendBadPage)).result = true := by
  exact ⟨by decide, rfl, rfl⟩

/-- **C3 (amended)**: for every malformed extraction output (wrong-typed
field or missing required field), Smart Mentions, Top Mentions, Search
Mentions and Account Stats halt with no HTTP request and result `false`
(in particular Search Mentions with `from`/`to` but no `keywords`);
Trending Tokens, however, dispatches any output whose `timeWindow` is a
string, wrong-typed other fields included. -/
theorem claim3_malformed_extraction_halts_before_http
    (rt : Runtime) (ext : Externals) (c : Content)
    (hex : ext.extraction = .ok c) :
    (smartMentionsMalformed c = true →
      (elfaGetSmartMentionsHandler rt ext).requests = []
      ∧ (elfaGetSmartMentionsHandler rt ext).result = false)
    ∧ (topMentionsMalformed c = true →
      (elfaGetTopMentionsHandler rt ext).requests = []
      ∧ (elfaGetTopMentionsHandler rt ext).result = false)
    ∧ (searchMentionsMalformed c = true →
      (elfaGetSearchMentionsByKeywordsHandler rt ext).requests = []
      ∧ (elfaGetSearchMentionsByKeywordsHandler rt ext).result = false)
    ∧ (accountStatsMalformed c = true →
      (elfaGetTwitterAccountStatsHandler rt ext).requests = []
      ∧ (elfaGetTwitterAccountStatsHandler rt ext).result = false)
    ∧ (∀ s, c "timeWindow" = .vStr s →
      (elfaGetTrendingTokensHandler rt ext).requests
        = [trendingTokensRequest rt c]) := by
  refine ⟨fun hm => ?_, fun hm => ?_, fun hm => ?_, fun hm => ?_,
    fun s hs => ?_⟩
  · have hg : isGetSmartMentionsContent c = false := by
      rw [isGetSmartMentionsContent_eq]
      rw [smartMentionsMalformed] at hm
      rcases hl : c "limit" <;> rcases ho : c "offset" <;>
        simp_all [numOrUndefined, isNumV]
    exact smartMentions_halts_of_invalid rt ext c hex hg
  · have hg : isGetTopMentionsContent c = false := by
      rw [isGetTopMentionsContent_eq]
      rw [topMentionsMalformed] at hm
      exact bnot_true_eq_false hm
    exact topMentions_halts_of_invalid rt ext c hex hg
  · have hg : isGetSearchMentionsByKeywordsContent c = false := by
      rw [isGetSearchMentionsByKeywordsContent_eq]
      rw [searchMentionsMalformed] at hm
      exact bnot_true_eq_false hm
    exact searchMentions_halts_of_invalid rt ext c hex hg
  · have hg : isGetTwitterAccountStatsContent c = false := by
      rw [isGetTwitterAccountStatsContent_eq]
      rw [accountStatsMalformed] at hm
      exact bnot_true_eq_false hm
    exact accountStats_halts_of_invalid rt ext c hex hg
  · have hg : isGetTrendingTokensContent c = true := by
      rw [isGetTrendingTokensContent_eq, hs]; rfl
    exact trendingTokens_requests_of_valid rt ext c hex hg

/-- **C3 witness**: the Search Mentions scenario — `from`/`to` present,
`keywords` missing — halts with no HTTP request and `false`. -/
theorem claim3_search_scenario_witness :
    (elfaGetSearchMentionsByKeywordsHandler rtElfa (extWith cSearchNoKeywords)).requests = []
    ∧ (elfaGetSearchMentionsByKeywordsHandler rtElfa (extWith cSearchNoKeywords)).result
        = false :=
  (claim3_malformed_extraction_halts_before_http rtElfa
    (extWith cSearchNoKeywords) cSearchNoKeywords rfl).2.2.1 (by decide)

/-! ## Claim C4 (confirmed) -/

/-- **C4**: the trending-tokens validity check returns `true` for every
input object whose `timeWindow` field is a string, regardless of the
presence or types of the `page`, `pageSize` and `minMentions` fields:
the operator precedence makes every other disjunct of the condition
unreachable (`typeof x === void 0` is identically false). -/
theorem claim4_trending_guard_accepts_any_string_timeWindow
    (c : Content) (s : String) (h : c "timeWindow" = .vStr s) :
    isGetTrendingTokensContent c = true := by
  rw [isGetTrendingTokensContent_eq, h]; rfl

/-- **C4 witness**: an input with a string `timeWindow` and a
wrong-typed `page` passes the check. -/
theorem claim4_trending_guard_witness :
    isGetTrendingTokensContent cTrendBadPage = true :=
  claim4_trending_guard_accepts_any_string_timeWindow cTrendBadPage "24h" (by decide)

/-! ## Claim C5 (corrected) -/

/-- **C5 counterexample**: the Ping handler does not perform the
parameter-extraction step — with an extraction collaborator that throws
(which would halt a pipeline-following handler before dispatch with
result `false`), Ping still issues its request and returns `true`. -/
theorem claim5_ping_skips_extraction_cex :
    extPing.extraction = .error "Unexpected extraction failure"
    ∧ (elfaPingHandler rtElfa extPing).result = true
    ∧ (elfaPingHandler rtElfa extPing).requests ≠ [] := by
  refine ⟨rfl, rfl, fun h => ?_⟩
  rw [show (elfaPingHandler rtElfa extPing).requests
    = [requestFor rtElfa "/v1/ping" []] from rfl] at h
  exact List.noConfusion h

/-- **C5 (amended)**: the five parameterized handlers run extraction,
validity guard, HTTP dispatch, summarization and emission in that order
— a failed extraction or failed guard halts them before any request,
a passing guard dispatches exactly the action's request, and on full
success they emit the combined message and `true`; the Ping and Key
Status handlers perform neither extraction nor summarization (their
behavior depends only on the HTTP outcome) and dispatch directly,
emitting the raw JSON. -/
theorem claim5_handler_pipeline_order (rt : Runtime) (ext : Externals) :
    (∀ ext2 : Externals, ext.http = ext2.http →
      elfaPingHandler rt ext = elfaPingHandler rt ext2
      ∧ elfaApiKeyStatusHandler rt ext = elfaApiKeyStatusHandler rt ext2)
    ∧ (∀ b, ext.http (requestFor rt "/v1/ping" []) = .ok b →
      elfaPingHandler rt ext
        = ⟨[⟨"Elfa AI API is up and running. Response: " ++ stringifyCompact b,
            some "ELFA_PING"⟩], [requestFor rt "/v1/ping" []], true⟩)
    ∧ (∀ b, ext.http (requestFor rt "/v1/key-status" []) = .ok b →
      elfaApiKeyStatusHandler rt ext
        = ⟨[⟨"Elfa AI API key status. Response: " ++ stringifyCompact b,
            some "ELFA_API_KEY_STATUS"⟩], [requestFor rt "/v1/key-status" []], true⟩)
    ∧ (∀ e, ext.extraction = .error e →
      (elfaGetSmartMentionsHandler rt ext).requests = []
      ∧ (elfaGetSmartMentionsHandler rt ext).result = false
      ∧ (elfaGetTopMentionsHandler rt ext).requests = []
      ∧ (elfaGetTopMentionsHandler rt ext).result = false
      ∧ (elfaGetSearchMentionsByKeywordsHandler rt ext).requests = []
      ∧ (elfaGetSearchMentionsByKeywordsHandler rt ext).result = false
      ∧ (elfaGetTrendingTokensHandler rt ext).requests = []
      ∧ (elfaGetTrendingTokensHandler rt ext).result = false
      ∧ (elfaGetTwitterAccountStatsHandler rt ext).requests = []
      ∧ (elfaGetTwitterAccountStatsHandler rt ext).result = false)
    ∧ (∀ c, ext.extraction = .ok c →
      (isGetSmartMentionsContent c = false →
        (elfaGetSmartMentionsHandler rt ext).requests = []
        ∧ (elfaGetSmartMentionsHandler rt ext).result = false)
      ∧ (isGetSmartMentionsContent c = true →
        (elfaGetSmartMentionsHandler rt ext).requests = [smartMentionsRequest rt c])
      ∧ (isGetTopMentionsContent c = false →
        (elfaGetTopMentionsHandler rt ext).requests = []
        ∧ (elfaGetTopMentionsHandler rt ext).result = false)
      ∧ (isGetTopMentionsContent c = true →
        (elfaGetTopMentionsHandler rt ext).requests = [topMentionsRequest rt c])
      ∧ (isGetSearchMentionsByKeywordsContent c = false →
        (elfaGetSearchMentionsByKeywordsHandler rt ext).requests = []
        ∧ (elfaGetSearchMentionsByKeywordsHandler rt ext).result = false)
      ∧ (isGetSearchMentionsByKeywordsContent c = true →
        (elfaGetSearchMentionsByKeywordsHandler rt ext).requests
          = [searchMentionsRequest rt c])
      ∧ (isGetTrendingTokensContent c = false →
        (elfaGetTrendingTokensHandler rt ext).requests = []
        ∧ (elfaGetTrendingTokensHandler rt ext).result = false)
      ∧ (isGetTrendingTokensContent c = true →
        (elfaGetTrendingTokensHandler rt ext).requests = [trendingTokensRequest rt c])
      ∧ (isGetTwitterAccountStatsContent c = false →
        (elfaGetTwitterAccountStatsHandler rt ext).requests = []
        ∧ (elfaGetTwitterAccountStatsHandler rt ext).result = false)
      ∧ (isGetTwitterAccountStatsContent c = true →
        (elfaGetTwitterAccountStatsHandler rt ext).requests
          = [accountStatsRequest rt c]))
    ∧ (∀ c b s, ext.extraction = .ok c → isGetSmartMentionsContent c = true →
      ext.http (smartMentionsRequest rt c) = .ok b →
      ext.summarize (smartMentionsPrompt b) = .ok s →
      elfaGetSmartMentionsHandler rt ext
        = ⟨[⟨"Retrieves tweets by smart accounts with smart engagement from the Elfa AI API:\n"
            ++ s ++ rawResponseSep ++ stringify2 b,
            some "ELFA_GET_SMART_MENTIONS"⟩], [smartMentionsRequest rt c], true⟩)
    ∧ (∀ c e, ext.extraction = .ok c → isGetSmartMentionsContent c = true →
      ext.http (smartMentionsRequest rt c) = .error e →
      (elfaGetSmartMentionsHandler rt ext).result = false) := by
  refine ⟨fun ext2 hh => ?_, fun b hb => ?_, fun b hb => ?_, fun e hx => ?_,
    fun c hx => ?_, fun c b s hx hg hh hs => ?_, fun c e hx hg hh => ?_⟩
  · constructor <;> simp [elfaPingHandler, elfaApiKeyStatusHandler, hh]
  · exact (pingHandler_cases rt ext).1 b hb
  · exact (apiKeyStatusHandler_cases rt ext).1 b hb
  · rw [(smartMentionsHandler_cases rt ext).1 e hx,
      (topMentionsHandler_cases rt ext).1 e hx,
      (searchMentionsHandler_cases rt ext).1 e hx,
      (trendingTokensHandler_cases rt ext).1 e hx,
      (accountStatsHandler_cases rt ext).1 e hx]
    exact ⟨rfl, rfl, rfl, rfl, rfl, rfl, rfl, rfl, rfl, rfl⟩
  · exact ⟨fun hg => smartMentions_halts_of_invalid rt ext c hx hg,
      fun hg => smartMentions_requests_of_valid rt ext c hx hg,
      fun hg => topMentions_halts_of_invalid rt ext c hx hg,
      fun hg => topMentions_requests_of_valid rt ext c hx hg,
      fun hg => searchMentions_halts_of_invalid rt ext c hx hg,
      fun hg => searchMentions_requests_of_valid rt ext c hx hg,
      fun hg => trendingTokens_halts_of_invalid rt ext c hx hg,
      fun hg => trendingTokens_requests_of_valid rt ext c hx hg,
      fun hg => accountStats_halts_of_invalid rt ext c hx hg,
      fun hg => accountStats_requests_of_valid rt ext c hx hg⟩
  · exact (smartMentionsHandler_cases rt ext).2.2.2.2 c b s hx hg hh hs
  · rw [(smartMentionsHandler_cases rt ext).2.2.1 c e hx hg hh]

/-- **C5 witness**: the Ping handler's output is unchanged when the
extraction and summarization collaborators are replaced, HTTP outcome
held fixed. -/
theorem claim5_ping_independence_witness :
    elfaPingHandler rtElfa extPing = elfaPingHandler rtElfa extPing2 :=
  ((claim5_handler_pipeline_order rtElfa extPing).1 extPing2 rfl).1

/-! ## Claim C7 (confirmed) -/

/-- **C7**: for every fixed API response body, the success message of a
summarizing orchestrator is exactly the narrative summary followed by
the separator and the serialized JSON of that body (`JSON.stringify`
with two-space indent), byte for byte; proved for the Smart Mentions
and Top Mentions orchestrators the claim cites. -/
theorem claim7_success_message_appends_raw_json
    (rt : Runtime) (ext : Externals) (c : Content) (b : Json) (s : String)
    (hex : ext.extraction = .ok c) :
    (isGetSmartMentionsContent c = true →
      ext.http (smartMentionsRequest rt c) = .ok b →
      ext.summarize (smartMentionsPrompt b) = .ok s →
      (elfaGetSmartMentionsHandler rt ext).messages
        = [⟨"Retrieves tweets by smart accounts with smart engagement from the Elfa AI API:\n"
            ++ s ++ rawResponseSep ++ stringify2 b,
            some "ELFA_GET_SMART_MENTIONS"⟩]
      ∧ (elfaGetSmartMentionsHandler rt ext).result = true)
    ∧ (isGetTopMentionsContent c = true →
      ext.http (topMentionsRequest rt c) = .ok b →
      ext.summarize (topMentionsPrompt b) = .ok s →
      (elfaGetTopMentionsHandler rt ext).messages
        = [⟨"Retrieved top tweets for the " ++ jsAsString (c "ticker") ++ ":\n"
            ++ s ++ rawResponseSep ++ stringify2 b,
            some "ELFA_GET_TOP_MENTIONS"⟩]
      ∧ (elfaGetTopMentionsHandler rt ext).result = true) := by
  refine ⟨fun hg hh hs => ?_, fun hg hh hs => ?_⟩
  · rw [(smartMentionsHandler_cases rt ext).2.2.2.2 c b s hex hg hh hs]
    exact ⟨rfl, rfl⟩
  · rw [(topMentionsHandler_cases rt ext).2.2.2.2 c b s hex hg hh hs]
    exact ⟨rfl, rfl⟩

/-- **C7 witness**: a concrete full-success Smart Mentions run whose
emitted text ends with the serialized body after the summary. -/
theorem claim7_success_message_witness :
    (elfaGetSmartMentionsHandler rtElfa (extWith cAll)).messages
      = [⟨"Retrieves tweets by smart accounts with smart engagement from the Elfa AI API:\n"
          ++ "A short narrative summary." ++ rawResponseSep ++ stringify2 sampleBody,
          some "ELFA_GET_SMART_MENTIONS"⟩]
    ∧ (elfaGetSmartMentionsHandler rtElfa (extWith cAll)).result = true :=
  (claim7_success_message_appends_raw_json rtElfa (extWith cAll) cAll
    sampleBody "A short narrative summary." rfl).1 (by decide) rfl rfl

/-- The Ping scenario body serializes compactly to
`\x7b"status":"ok"\x7d`. -/
theorem stringifyCompact_pingBody :
    stringifyCompact pingBody = "\x7b\"status\":\"ok\"\x7d" := by
  simp [pingBody, stringifyCompact, stringifyCompactFields, quoteJson,
    escapeJson, escapeJsonChar]
  rfl

/-! ## Claim C8 (confirmed) -/

/-- **C8**: every HTTP request issued by any of the seven actions
carries `Content-Type: application/json` and `x-elfa-api-key` set to the
configured API key, and targets the configured base URL concatenated
with the action's endpoint path; in the Ping scenario (base URL
`https://api.elfa.ai`, 200 body `\x7b"status":"ok"\x7d`) the handler
returns `true` with a message containing `ok`. -/
theorem claim8_requests_carry_headers_and_base_url
    (rt : Runtime) (ext : Externals) (burl key : String)
    (hb : rt.settings "ELFA_AI_BASE_URL" = some burl)
    (hk : rt.settings "ELFA_AI_API_KEY" = some key) :
    (∀ r ∈ (elfaPingHandler rt ext).requests,
      r.contentType = "application/json" ∧ r.apiKeyHeader = some key
      ∧ r.url = burl ++ "/v1/ping")
    ∧ (∀ r ∈ (elfaApiKeyStatusHandler rt ext).requests,
      r.contentType = "application/json" ∧ r.apiKeyHeader = some key
      ∧ r.url = burl ++ "/v1/key-status")
    ∧ (∀ r ∈ (elfaGetSmartMentionsHandler rt ext).requests,
      r.contentType = "application/json" ∧ r.apiKeyHeader = some key
      ∧ r.url = burl ++ "/v1/mentions")
    ∧ (∀ r ∈ (elfaGetTopMentionsHandler rt ext).requests,
      r.contentType = "application/json" ∧ r.apiKeyHeader = some key
      ∧ r.url = burl ++ "/v1/top-mentions")
    ∧ (∀ r ∈ (elfaGetSearchMentionsByKeywordsHandler rt ext).requests,
      r.contentType = "application/json" ∧ r.apiKeyHeader = some key
      ∧ r.url = burl ++ "/v1/mentions/search")
    ∧ (∀ r ∈ (elfaGetTrendingTokensHandler rt ext).requests,
      r.contentType = "application/json" ∧ r.apiKeyHeader = some key
      ∧ r.url = burl ++ "/v1/trending-tokens")
    ∧ (∀ r ∈ (elfaGetTwitterAccountStatsHandler rt ext).requests,
      r.contentType = "application/json" ∧ r.apiKeyHeader = some key
      ∧ r.url = burl ++ "/v1/account/smart-stats")
    ∧ ((elfaPingHandler rtElfa extPing).result = true
      ∧ (elfaPingHandler rtElfa extPing).requests
          = [⟨"https://api.elfa.ai/v1/ping", "application/json", some "test-key", []⟩]
      ∧ (elfaPingHandler rtElfa extPing).messages.map Message.text
          = ["Elfa AI API is up and running. Response: " ++ stringifyCompact pingBody]
      ∧ strHasSub ("Elfa AI API is up and running. Response: "
          ++ stringifyCompact pingBody) "ok" = true) := by
  have hkey : ∀ path ps, (requestFor rt path ps).contentType = "application/json"
      ∧ (requestFor rt path ps).apiKeyHeader = some key
      ∧ (requestFor rt path ps).url = burl ++ path := by
    intro path ps
    refine ⟨rfl, ?_, ?_⟩ <;> simp [requestFor, optAsString, hb, hk]
  have hping : (elfaPingHandler rt ext).requests = [requestFor rt "/v1/ping" []] := by
    rcases hh : ext.http (requestFor rt "/v1/ping" []) with e | b
    · rw [(pingHandler_cases rt ext).2 e hh]
    · rw [(pingHandler_cases rt ext).1 b hh]
  have hkeyst : (elfaApiKeyStatusHandler rt ext).requests
      = [requestFor rt "/v1/key-status" []] := by
    rcases hh : ext.http (requestFor rt "/v1/key-status" []) with e | b
    · rw [(apiKeyStatusHandler_cases rt ext).2 e hh]
    · rw [(apiKeyStatusHandler_cases rt ext).1 b hh]
  refine ⟨?_, ?_, ?_, ?_, ?_, ?_, ?_, rfl, rfl, rfl,
    by rw [stringifyCompact_pingBody]; decide⟩
  · intro r hr
    rw [hping] at hr
    rw [List.mem_singleton] at hr
    subst hr
    exact hkey "/v1/ping" []
  · intro r hr
    rw [hkeyst] at hr
    rw [List.mem_singleton] at hr
    subst hr
    exact hkey "/v1/key-status" []
  · intro r hr
    rcases hx : ext.extraction with e | c
    · rw [(smartMentionsHandler_cases rt ext).1 e hx] at hr
      exact absurd hr (List.not_mem_nil r)
    · cases hg : isGetSmartMentionsContent c
      · rw [((smartMentionsHandler_cases rt ext).2.1 c hx hg :)] at hr
        exact absurd hr (List.not_mem_nil r)
      · rw [smartMentions_requests_of_valid rt ext c hx hg, List.mem_singleton] at hr
        subst hr
        exact hkey "/v1/mentions" _
  · intro r hr
    rcases hx : ext.extraction with e | c
    · rw [(topMentionsHandler_cases rt ext).1 e hx] at hr
      exact absurd hr (List.not_mem_nil r)
    · cases hg : isGetTopMentionsContent c
      · rw [((topMentionsHandler_cases rt ext).2.1 c hx hg :)] at hr
        exact absurd hr (List.not_mem_nil r)
      · rw [topMentions_requests_of_valid rt ext c hx hg, List.mem_singleton] at hr
        subst hr
        exact hkey "/v1/top-mentions" _
  · intro r hr
    rcases hx : ext.extraction with e | c
    · rw [(searchMentionsHandler_cases rt ext).1 e hx] at hr
      exact absurd hr (List.not_mem_nil r)
    · cases hg : isGetSearchMentionsByKeywordsContent c
      · rw [((searchMentionsHandler_cases rt ext).2.1 c hx hg :)] at hr
        exact absurd hr (List.not_mem_nil r)
      · rw [searchMentions_requests_of_valid rt ext c hx hg, List.mem_singleton] at hr
        subst hr
        exact hkey "/v1/mentions/search" _
  · intro r hr
    rcases hx : ext.extraction with e | c
    · rw [(trendingTokensHandler_cases rt ext).1 e hx] at hr
      exact absurd hr (List.not_mem_nil r)
    · cases hg : isGetTrendingTokensContent c
      · rw [((trendingTokensHandler_cases rt ext).2.1 c hx hg :)] at hr
        exact absurd hr (List.not_mem_nil r)
      · rw [trendingTokens_requests_of_valid rt ext c hx hg, List.mem_singleton] at hr
        subst hr
        exact hkey "/v1/trending-tokens" _
  · intro r hr
    rcases hx : ext.extraction with e | c
    · rw [(accountStatsHandler_cases rt ext).1 e hx] at hr
      exact absurd hr (List.not_mem_nil r)
    · cases hg : isGetTwitterAccountStatsContent c
      · rw [((accountStatsHandler_cases rt ext).2.1 c hx hg :)] at hr
        exact absurd hr (List.not_mem_nil r)
      · rw [accountStats_requests_of_valid rt ext c hx hg, List.mem_singleton] at hr
        subst hr
        exact hkey "/v1/account/smart-stats" _

/-- **C8 witness**: the theorem applied to the configured runtime; the
Ping request it issues carries the headers and the concatenated URL. -/
theorem claim8_headers_witness :
    (requestFor rtElfa "/v1/ping" []).contentType = "application/json"
    ∧ (requestFor rtElfa "/v1/ping" []).apiKeyHeader = some "test-key"
    ∧ (requestFor rtElfa "/v1/ping" []).url = "https://api.elfa.ai" ++ "/v1/ping" :=
  (claim8_requests_carry_headers_and_base_url rtElfa extPing
    "https://api.elfa.ai" "test-key" (by decide) (by decide)).1
    (requestFor rtElfa "/v1/ping" []) (by rw [show (elfaPingHandler rtElfa extPing).requests
      = [requestFor rtElfa "/v1/ping" []] from rfl]; exact List.mem_singleton.mpr rfl)

/-! ## Claim C9 (confirmed) -/

/-- **C9**: every handler is a total function of its collaborators'
outcomes — each body sits in one `try/catch`, so an error thrown during
extraction, dispatch or summarization is converted into exactly one
user-facing callback message plus the return value `false`, never
re-thrown; and a handler returns `true` only when every stage of its
pipeline succeeded. -/
theorem claim9_errors_become_message_and_false (rt : Runtime) (ext : Externals) :
    ((elfaPingHandler rt ext).result = false →
      (elfaPingHandler rt ext).messages.length = 1)
    ∧ ((elfaPingHandler rt ext).result = true →
      ∃ b, ext.http (requestFor rt "/v1/ping" []) = .ok b)
    ∧ ((elfaApiKeyStatusHandler rt ext).result = false →
      (elfaApiKeyStatusHandler rt ext).messages.length = 1)
    ∧ ((elfaApiKeyStatusHandler rt ext).result = true →
      ∃ b, ext.http (requestFor rt "/v1/key-status" []) = .ok b)
    ∧ ((elfaGetSmartMentionsHandler rt ext).result = false →
      (elfaGetSmartMentionsHandler rt ext).messages.length = 1)
    ∧ ((elfaGetSmartMentionsHandler rt ext).result = true →
      ∃ c b s, ext.extraction = .ok c ∧ isGetSmartMentionsContent c = true
        ∧ ext.http (smartMentionsRequest rt c) = .ok b
        ∧ ext.summarize (smartMentionsPrompt b) = .ok s)
    ∧ ((elfaGetTopMentionsHandler rt ext).result = false →
      (elfaGetTopMentionsHandler rt ext).messages.length = 1)
    ∧ ((elfaGetTopMentionsHandler rt ext).result = true →
      ∃ c b s, ext.extraction = .ok c ∧ isGetTopMentionsContent c = true
        ∧ ext.http (topMentionsRequest rt c) = .ok b
        ∧ ext.summarize (topMentionsPrompt b) = .ok s)
    ∧ ((elfaGetSearchMentionsByKeywordsHandler rt ext).result = false →
      (elfaGetSearchMentionsByKeywordsHandler rt ext).messages.length = 1)
    ∧ ((elfaGetSearchMentionsByKeywordsHandler rt ext).result = true →
      ∃ c b s, ext.extraction = .ok c
        ∧ isGetSearchMentionsByKeywordsContent c = true
        ∧ ext.http (searchMentionsRequest rt c) = .ok b
        ∧ ext.summarize (searchMentionsPrompt b) = .ok s)
    ∧ ((elfaGetTrendingTokensHandler rt ext).result = false →
      (elfaGetTrendingTokensHandler rt ext).messages.length = 1)
    ∧ ((elfaGetTrendingTokensHandler rt ext).result = true →
      ∃ c b s, ext.extraction = .ok c ∧ isGetTrendingTokensContent c = true
        ∧ ext.http (trendingTokensRequest rt c) = .ok b
        ∧ ext.summarize (trendingTokensPrompt b) = .ok s)
    ∧ ((elfaGetTwitterAccountStatsHandler rt ext).result = false →
      (elfaGetTwitterAccountStatsHandler rt ext).messages.length = 1)
    ∧ ((elfaGetTwitterAccountStatsHandler rt ext).result = true →
      ∃ c b s, ext.extraction = .ok c
        ∧ isGetTwitterAccountStatsContent c = true
        ∧ ext.http (accountStatsRequest rt c) = .ok b
        ∧ ext.summarize (accountStatsPrompt c b) = .ok s) := by
  refine ⟨?_, ?_, ?_, ?_, ?_, ?_, ?_, ?_, ?_, ?_, ?_, ?_, ?_, ?_⟩
  · intro hf
    rcases hh : ext.http (requestFor rt "/v1/ping" []) with e | b
    · rw [(pingHandler_cases rt ext).2 e hh]; rfl
    · rw [(pingHandler_cases rt ext).1 b hh] at hf
      exact Bool.noConfusion hf
  · intro ht
    rcases hh : ext.http (requestFor rt "/v1/ping" []) with e | b
    · rw [(pingHandler_cases rt ext).2 e hh] at ht
      exact Bool.noConfusion ht
    · exact ⟨b, rfl⟩
  · intro hf
    rcases hh : ext.http (requestFor rt "/v1/key-status" []) with e | b
    · rw [(apiKeyStatusHandler_cases rt ext).2 e hh]; rfl
    · rw [(apiKeyStatusHandler_cases rt ext).1 b hh] at hf
      exact Bool.noConfusion hf
  · intro ht
    rcases hh : ext.http (requestFor rt "/v1/key-status" []) with e | b
    · rw [(apiKeyStatusHandler_cases rt ext).2 e hh] at ht
      exact Bool.noConfusion ht
    · exact ⟨b, rfl⟩
  · intro hf
    have hc := smartMentionsHandler_cases rt ext
    rcases hx : ext.extraction with e | c
    · rw [hc.1 e hx]; rfl
    · cases hg : isGetSmartMentionsContent c
      · rw [hc.2.1 c hx hg]; rfl
      · rcases hh : ext.http (smartMentionsRequest rt c) with e | b
        · rw [hc.2.2.1 c e hx hg hh]; rfl
        · rcases hs : ext.summarize (smartMentionsPrompt b) with e2 | s2
          · rw [hc.2.2.2.1 c b e2 hx hg hh hs]; rfl
          · rw [hc.2.2.2.2 c b s2 hx hg hh hs] at hf
            exact Bool.noConfusion hf
  · intro ht
    have hc := smartMentionsHandler_cases rt ext
    rcases hx : ext.extraction with e | c
    · rw [hc.1 e hx] at ht; exact Bool.noConfusion ht
    · cases hg : isGetSmartMentionsContent c
      · rw [hc.2.1 c hx hg] at ht; exact Bool.noConfusion ht
      · rcases hh : ext.http (smartMentionsRequest rt c) with e | b
        · rw [hc.2.2.1 c e hx hg hh] at ht; exact Bool.noConfusion ht
        · rcases hs : ext.summarize (smartMentionsPrompt b) with e2 | s2
          · rw [hc.2.2.2.1 c b e2 hx hg hh hs] at ht; exact Bool.noConfusion ht
          · exact ⟨c, b, s2, rfl, hg, hh, hs⟩
  · intro hf
    have hc := topMentionsHandler_cases rt ext
    rcases hx : ext.extraction with e | c
    · rw [hc.1 e hx]; rfl
    · cases hg : isGetTopMentionsContent c
      · rw [hc.2.1 c hx hg]; rfl
      · rcases hh : ext.http (topMentionsRequest rt c) with e | b
        · rw [hc.2.2.1 c e hx hg hh]; rfl
        · rcases hs : ext.summarize (topMentionsPrompt b) with e2 | s2
          · rw [hc.2.2.2.1 c b e2 hx hg hh hs]; rfl
          · rw [hc.2.2.2.2 c b s2 hx hg hh hs] at hf
            exact Bool.noConfusion hf
  · intro ht
    have hc := topMentionsHandler_cases rt ext
    rcases hx : ext.extraction with e | c
    · rw [hc.1 e hx] at ht; exact Bool.noConfusion ht
    · cases hg : isGetTopMentionsContent c
      · rw [hc.2.1 c hx hg] at ht; exact Bool.noConfusion ht
      · rcases hh : ext.http (topMentionsRequest rt c) with e | b
        · rw [hc.2.2.1 c e hx hg hh] at ht; exact Bool.noConfusion ht
        · rcases hs : ext.summarize (topMentionsPrompt b) with e2 | s2
          · rw [hc.2.2.2.1 c b e2 hx hg hh hs] at ht; exact Bool.noConfusion ht
          · exact ⟨c, b, s2, rfl, hg, hh, hs⟩
  · intro hf
    have hc := searchMentionsHandler_cases rt ext
    rcases hx : ext.extraction with e | c
    · rw [hc.1 e hx]; rfl
    · cases hg : isGetSearchMentionsByKeywordsContent c
      · rw [hc.2.1 c hx hg]; rfl
      · rcases hh : ext.http (searchMentionsRequest rt c) with e | b
        · rw [hc.2.2.1 c e hx hg hh]; rfl
        · rcases hs : ext.summarize (searchMentionsPrompt b) with e2 | s2
          · rw [hc.2.2.2.1 c b e2 hx hg hh hs]; rfl
          · rw [hc.2.2.2.2 c b s2 hx hg hh hs] at hf
            exact Bool.noConfusion hf
  · intro ht
    have hc := searchMentionsHandler_cases rt ext
    rcases hx : ext.extraction with e | c
    · rw [hc.1 e hx] at ht; exact Bool.noConfusion ht
    · cases hg : isGetSearchMentionsByKeywordsContent c
      · rw [hc.2.1 c hx hg] at ht; exact Bool.noConfusion ht
      · rcases hh : ext.http (searchMentionsRequest rt c) with e | b
        · rw [hc.2.2.1 c e hx hg hh] at ht; exact Bool.noConfusion ht
        · rcases hs : ext.summarize (searchMentionsPrompt b) with e2 | s2
          · rw [hc.2.2.2.1 c b e2 hx hg hh hs] at ht; exact Bool.noConfusion ht
          · exact ⟨c, b, s2, rfl, hg, hh, hs⟩
  · intro hf
    have hc := trendingTokensHandler_cases rt ext
    rcases hx : ext.extraction with e | c
    · rw [hc.1 e hx]; rfl
    · cases hg : isGetTrendingTokensContent c
      · rw [hc.2.1 c hx hg]; rfl
      · rcases hh : ext.http (trendingTokensRequest rt c) with e | b
        · rw [hc.2.2.1 c e hx hg hh]; rfl
        · rcases hs : ext.summarize (trendingTokensPrompt b) with e2 | s2
          · rw [hc.2.2.2.1 c b e2 hx hg hh hs]; rfl
          · rw [hc.2.2.2.2 c b s2 hx hg hh hs] at hf
            exact Bool.noConfusion hf
  · intro ht
    have hc := trendingTokensHandler_cases rt ext
    rcases hx : ext.extraction with e | c
    · rw [hc.1 e hx] at ht; exact Bool.noConfusion ht
    · cases hg : isGetTrendingTokensContent c
      · rw [hc.2.1 c hx hg] at ht; exact Bool.noConfusion ht
      · rcases hh : ext.http (trendingTokensRequest rt c) with e | b
        · rw [hc.2.2.1 c e hx hg hh] at ht; exact Bool.noConfusion ht
        · rcases hs : ext.summarize (trendingTokensPrompt b) with e2 | s2
          · rw [hc.2.2.2.1 c b e2 hx hg hh hs] at ht; exact Bool.noConfusion ht
          · exact ⟨c, b, s2, rfl, hg, hh, hs⟩
  · intro hf
    have hc := accountStatsHandler_cases rt ext
    rcases hx : ext.extraction with e | c
    · rw [hc.1 e hx]; rfl
    · cases hg : isGetTwitterAccountStatsContent c
      · rw [hc.2.1 c hx hg]; rfl
      · rcases hh : ext.http (accountStatsRequest rt c) with e | b
        · rw [hc.2.2.1 c e hx hg hh]; rfl
        · rcases hs : ext.summarize (accountStatsPrompt c b) with e2 | s2
          · rw [hc.2.2.2.1 c b e2 hx hg hh hs]; rfl
          · rw [hc.2.2.2.2 c b s2 hx hg hh hs] at hf
            exact Bool.noConfusion hf
  · intro ht
    have hc := accountStatsHandler_cases rt ext
    rcases hx : ext.extraction with e | c
    · rw [hc.1 e hx] at ht; exact Bool.noConfusion ht
    · cases hg : isGetTwitterAccountStatsContent c
      · rw [hc.2.1 c hx hg] at ht; exact Bool.noConfusion ht
      · rcases hh : ext.http (accountStatsRequest rt c) with e | b
        · rw [hc.2.2.1 c e hx hg hh] at ht; exact Bool.noConfusion ht
        · rcases hs : ext.summarize (accountStatsPrompt c b) with e2 | s2
          · rw [hc.2.2.2.1 c b e2 hx hg hh hs] at ht; exact Bool.noConfusion ht
          · exact ⟨c, b, s2, rfl, hg, hh, hs⟩

/-- **C9 witness**: an upstream 401 failure yields exactly one emitted
message and the Ping handler's failure indicator. -/
theorem claim9_upstream_error_witness :
    (elfaPingHandler rtElfa extFail).messages.length = 1 :=
  (claim9_errors_become_message_and_false rtElfa extFail).1 rfl

/-! ## Claim C10 (confirmed) -/

/-- **C10**: handlers read base URL and API key through the runtime
settings lookup only, without the environment fallback that `validate`
uses — with empty settings but both environment variables set,
`validate` succeeds while every one of the seven handlers issues its
request against the `undefined`-interpolated base URL with an
`undefined` (`none`) `x-elfa-api-key` header value. -/
theorem claim10_handlers_read_settings_only :
    actionValidate rtNone envElfa = .ok true
    ∧ (elfaPingHandler rtNone extPing2).requests
        = [⟨"undefined/v1/ping", "application/json", none, []⟩]
    ∧ (elfaPingHandler rtNone extPing2).result = true
    ∧ (elfaApiKeyStatusHandler rtNone extPing2).requests
        = [⟨"undefined/v1/key-status", "application/json", none, []⟩]
    ∧ (elfaGetSmartMentionsHandler rtNone (extWith cAll)).requests.map Request.url
        = ["undefined/v1/mentions"]
    ∧ (elfaGetSmartMentionsHandler rtNone (extWith cAll)).requests.map
        Request.apiKeyHeader = [none]
    ∧ (elfaGetTopMentionsHandler rtNone (extWith cAll)).requests.map Request.url
        = ["undefined/v1/top-mentions"]
    ∧ (elfaGetTopMentionsHandler rtNone (extWith cAll)).requests.map
        Request.apiKeyHeader = [none]
    ∧ (elfaGetSearchMentionsByKeywordsHandler rtNone (extWith cAll)).requests.map
        Request.url = ["undefined/v1/mentions/search"]
    ∧ (elfaGetSearchMentionsByKeywordsHandler rtNone (extWith cAll)).requests.map
        Request.apiKeyHeader = [none]
    ∧ (elfaGetTrendingTokensHandler rtNone (extWith cAll)).requests.map Request.url
        = ["undefined/v1/trending-tokens"]
    ∧ (elfaGetTrendingTokensHandler rtNone (extWith cAll)).requests.map
        Request.apiKeyHeader = [none]
    ∧ (elfaGetTwitterAccountStatsHandler rtNone (extWith cAll)).requests.map
        Request.url = ["undefined/v1/account/smart-stats"]
    ∧ (elfaGetTwitterAccountStatsHandler rtNone (extWith cAll)).requests.map
        Request.apiKeyHeader = [none] :=
  ⟨rfl, rfl, rfl, rfl, rfl, rfl, rfl, rfl, rfl, rfl, rfl, rfl, rfl, rfl⟩

end ElfaAi
